import Mathlib

/-!
Shallow embedding of the XHR span-correlation engine of
hyperdx-otel-react-native (src/instrumentations/xhr.ts, src/splunkRum.ts),
together with theorems about its behaviour.

The source file contains two parallel implementations of the XHR
instrumentation:

* the class based `XMLHttpRequestInstrumentation` (ported from upstream
  opentelemetry-js; exported through `instrumentXHROriginal`, which the
  source marks as NOT USED), which defers span finalization by
  `OBSERVER_WAIT_TIME_MS` (300ms) through a `setTimeout`, correlates
  performance resource timing entries with the span, and registers five
  completion listeners together with a `callbackToRemoveEvents` teardown
  capability; and

* the closure based `instrumentXHR`, the implementation that
  `HyperDXRum.init` installs, which registers a single `readystatechange`
  listener, never removes it, performs no resource correlation, and
  finalizes the span synchronously inside the terminal event handler.

Both are embedded below, each in its own namespace, faithful to the
corresponding source functions.

Embedding conventions: JS numbers occurring here are timestamps, counters
and HTTP status codes, embedded as `Nat` or `Int`; `Date.now()` and
`hrTime()` values are passed to the handlers as explicit `Nat` arguments.
The `WeakMap` registry keyed by the XHR handle is embedded for a single
request handle as an `Option XhrMem` field; the `WeakSet` of used resource
entries is embedded as a list of numeric entry identities (JS object
identity becomes the `id` field of an entry). Spans are rows of a growing
table (`List SpanRec`), identified by their index; `span.end` increments
the `endCount` of the row, so that "the span is ended exactly once" is the
statement `endCount = 1`. Logging (`api.diag`) is modelled only where a
claim mentions it (the debug flag of `addHeaders`, the error flag of
`init`); other log calls have no state effect.
-/

/-! ## Generic list helpers (span table plumbing) -/

def modifyAt {α : Type} : List α → Nat → (α → α) → List α
  | [], _, _ => []
  | x :: xs, 0, f => f x :: xs
  | x :: xs, n + 1, f => x :: modifyAt xs n f

/-! ## Span records -/

/-- Attribute values occurring on the modelled spans. -/
inductive AttrVal where
  | str (value : String)
  | nat (value : Nat)
  deriving DecidableEq

/-- The observable record of one span produced through the external tracer:
name, start time, attributes, events, number of `span.end` calls and the
timestamp passed to the last `span.end`. -/
structure SpanRec where
  name : String
  startTime : Option Nat := none
  attrs : List (String × AttrVal) := []
  events : List (String × Option Nat) := []
  endCount : Nat := 0
  endTime : Option Nat := none
  deriving DecidableEq

instance : Inhabited SpanRec := ⟨{ name := "" }⟩

def endCountAt (spans : List SpanRec) (i : Nat) : Nat := (spans.getD i default).endCount

def eventsAt (spans : List SpanRec) (i : Nat) : List (String × Option Nat) :=
  (spans.getD i default).events

def endTimeAt (spans : List SpanRec) (i : Nat) : Option Nat := (spans.getD i default).endTime

/-- `span.setAttribute` on span `i` of the table. -/
def setAttrAt (spans : List SpanRec) (i : Nat) (key : String) (v : AttrVal) : List SpanRec :=
  modifyAt spans i (fun sp => { sp with attrs := sp.attrs ++ [(key, v)] })

/-- `span.addEvent` on span `i` of the table (`time = none` when the source
passes no explicit timestamp). -/
def addEventAt (spans : List SpanRec) (i : Nat) (name : String) (time : Option Nat) :
    List SpanRec :=
  modifyAt spans i (fun sp => { sp with events := sp.events ++ [(name, time)] })

/-- `span.end(time)` on span `i` of the table. -/
def endSpanAt (spans : List SpanRec) (i : Nat) (time : Nat) : List SpanRec :=
  modifyAt spans i (fun sp => { sp with endCount := sp.endCount + 1, endTime := some time })

/-! ## URLs and URL matching -/

/-- Model of `new URL(url)` from react-native-url-polyfill, restricted to the
fields the instrumentation reads, for already-normalized absolute URLs:
`href` and `toString` return the input, `protocol` is the scheme followed by
a colon, `host` is the authority segment. URL normalization is not
modelled. -/
structure ParsedUrl where
  href : String
  host : String
  protocol : String
  deriving DecidableEq

/-- Whether `sep` is an initial segment of the character list. -/
def charsStartWith : List Char → List Char → Bool
  | _, [] => true
  | [], _ :: _ => false
  | c :: cs, p :: ps => c == p && charsStartWith cs ps

/-- Splits a character list at the first occurrence of `sep`: the part
before the separator and the part after it, or `none` when `sep` does not
occur. -/
def charsSplitFirst (sep : List Char) : List Char → Option (List Char × List Char)
  | [] => if charsStartWith [] sep then some ([], []) else none
  | c :: cs =>
    if charsStartWith (c :: cs) sep then some ([], (c :: cs).drop sep.length)
    else
      match charsSplitFirst sep cs with
      | some (pre, post) => some (c :: pre, post)
      | none => none

/-- The authority segment: everything up to the first slash. -/
def takeUntilSlash : List Char → List Char
  | [] => []
  | c :: cs => if c == '/' then [] else c :: takeUntilSlash cs

def parseUrl (url : String) : ParsedUrl :=
  match charsSplitFirst ("://".data) url.data with
  | some (scheme, rest) =>
    { href := url
      host := String.mk (takeUntilSlash rest)
      protocol := String.mk scheme ++ ":" }
  | none => { href := url, host := "", protocol := url ++ ":" }

/-- Substring test, used to model a JS RegExp such as `/api\.example\.com/`
whose test on a URL is a substring match. -/
def strContains (s sub : String) : Bool := (charsSplitFirst sub.data s.data).isSome

/-- A configured URL rule: an exact string, or a RegExp modelled by its test
predicate. -/
inductive UrlPattern where
  | str (value : String)
  | regex (test : String → Bool)

/-- Modelled from the spec: `urlMatches` is imported from the external
otel core package; per the spec a URL rule is an "exact string or pattern
match". -/
def urlMatches (url : String) (p : UrlPattern) : Bool :=
  match p with
  | .str value => url == value
  | .regex test => test url

/-- Modelled from the spec: `isUrlIgnored` is imported from the external
otel core package; a URL is ignored when it matches any configured ignore
rule, and nothing is ignored when no list is configured. -/
def isUrlIgnored (url : String) (ignoredUrls : Option (List UrlPattern)) : Bool :=
  match ignoredUrls with
  | none => false
  | some ps => ps.any (fun p => urlMatches url p)

/-- `PropagateTraceHeaderCorsUrls` from the external sdk-trace-web types:
a single string or RegExp, or an array of them. -/
inductive PropagateTraceHeaderCorsUrls where
  | single (p : UrlPattern)
  | list (ps : List UrlPattern)

/-- From src/instrumentations/xhr.ts, `shouldPropagateTraceHeaders`: wraps a
single rule into a list (and an absent configuration into the empty list)
and checks whether any configured rule matches the span URL. -/
def shouldPropagateTraceHeaders (spanUrl : String)
    (propagateTraceHeaderCorsUrls : Option PropagateTraceHeaderCorsUrls) : Bool :=
  let propagateTraceHeaderUrls : List UrlPattern :=
    match propagateTraceHeaderCorsUrls with
    | none => []
    | some (.single p) => [p]
    | some (.list ps) => ps
  propagateTraceHeaderUrls.any (fun p => urlMatches spanUrl p)

/-! ## Constants from the source -/

namespace EventNames

def EVENT_ABORT : String := "abort"

def EVENT_ERROR : String := "error"

def EVENT_LOAD : String := "loaded"

def EVENT_READY_STATE_CHANGE : String := "readystatechange"

def EVENT_TIMEOUT : String := "timeout"

def METHOD_OPEN : String := "open"

def METHOD_SEND : String := "send"

end EventNames

namespace AttributeNames

def COMPONENT : String := "component"

def HTTP_ERROR_NAME : String := "http.error_name"

def HTTP_STATUS_TEXT : String := "http.status_text"

end AttributeNames

namespace SemanticAttributes

def HTTP_METHOD : String := "http.method"

def HTTP_URL : String := "http.url"

def HTTP_STATUS_CODE : String := "http.status_code"

def HTTP_HOST : String := "http.host"

def HTTP_SCHEME : String := "http.scheme"

def HTTP_USER_AGENT : String := "http.user_agent"

end SemanticAttributes

namespace PTN

def FETCH_START : String := "fetchStart"

def RESPONSE_END : String := "responseEnd"

end PTN

/-- How long the class based implementation waits for the performance
observer before finalizing a span (ms). -/
def OBSERVER_WAIT_TIME_MS : Nat := 300

/-- `XMLHttpRequest.DONE`. -/
def XHR_DONE : Nat := 4

namespace UserAgent

/-- The external react-native-user-agent module; its runtime value is
opaque to the instrumentation, modelled as a constant. -/
def getUserAgent : String := "react-native-user-agent"

end UserAgent

/-! ## Resource timing entries and per-request state -/

/-- A browser performance resource timing entry, restricted to the fields
the instrumentation reads; `id` embeds JS object identity. -/
structure PerfResourceTiming where
  id : Nat
  name : String
  initiatorType : String
  fetchStart : Nat
  responseEnd : Nat
  deriving DecidableEq

/-- The `createdResources` field of `XhrMem`: entries the performance
observer collected for this request, and the observer connection. -/
structure CreatedResources where
  entries : List PerfResourceTiming
  observerConnected : Bool
  deriving DecidableEq

/-- The per-request mutable state (`XhrMem` from the external xhr
instrumentation types). `span` holds the span table index; the source type
makes `span` and `spanUrl` optional but both are always set on creation, so
the model makes them mandatory. `callbackToRemoveEvents` is a capability in
the source; the model records whether it is set, and invoking it is the
`runCallbackToRemoveEvents` operation of the class model. -/
structure XhrMem where
  span : Nat
  spanUrl : String
  sendStartTime : Option Nat := none
  status : Option Nat := none
  statusText : Option String := none
  callbackToRemoveEvents : Bool := false
  createdResources : Option CreatedResources := none
  deriving DecidableEq

/-- `XhrConfig` from src/instrumentations/xhr.ts (the body-capture flag is
from the later revision of the file). -/
structure XhrConfig where
  clearTimingResources : Bool := false
  ignoreUrls : Option (List UrlPattern) := none
  propagateTraceHeaderCorsUrls : Option PropagateTraceHeaderCorsUrls := none
  networkHeadersCapture : Bool := false
  networkBodyCapture : Bool := false

/-! ## getResource (Resource Correlator matching) -/

/-- The result shape of `getResource`. -/
structure ResourceMatchResult where
  mainRequest : Option PerfResourceTiming
  corsPreFlightRequest : Option PerfResourceTiming
  deriving DecidableEq

/-- Among the filtered candidates, the main request is the entry whose
timing window starts last. -/
def pickMainRequest : List PerfResourceTiming → Option PerfResourceTiming
  | [] => none
  | c :: cs =>
    some (cs.foldl (fun a b => if a.fetchStart ≤ b.fetchStart then b else a) c)

/-- The candidate entries `getResource` considers: URL equal to the target,
not already marked used, and timing window consistent with the span
window. -/
def xhrResourceCandidates (url : String) (startTime endTime : Nat)
    (resources : List PerfResourceTiming) (used : List Nat) : List PerfResourceTiming :=
  resources.filter (fun r =>
    r.name == url && !(decide (r.id ∈ used)) &&
    decide (startTime ≤ r.fetchStart) && decide (r.responseEnd ≤ endTime))

/-- Modelled from the spec: `getResource` is imported from the external
sdk-trace-web package and is not part of src/. Spec section 4.2: among
candidate entries, select the one whose URL equals the target and whose
timing window is consistent with the span window; an entry already marked
used by a previous correlation must be excluded from consideration; a CORS
preflight entry is a distinct candidate that completes before the main
request window starts. -/
def getResource (url : String) (startTime endTime : Nat)
    (resources : List PerfResourceTiming) (used : List Nat) : ResourceMatchResult :=
  match pickMainRequest (xhrResourceCandidates url startTime endTime resources used) with
  | none => { mainRequest := none, corsPreFlightRequest := none }
  | some main =>
    { mainRequest := some main
      corsPreFlightRequest :=
        (xhrResourceCandidates url startTime endTime resources used).find?
          (fun r => !(r.id == main.id) && decide (r.responseEnd ≤ main.fetchStart)) }

/-- Modelled from the spec: `addSpanNetworkEvents` from the external
sdk-trace-web package attaches network timing-phase events of a resource
entry to a span; modelled with the fetchStart and responseEnd phases, the
phases carried by the modelled entries. -/
def addSpanNetworkEvents (r : PerfResourceTiming) (sp : SpanRec) : SpanRec :=
  { sp with events :=
      sp.events ++ [(PTN.FETCH_START, some r.fetchStart), (PTN.RESPONSE_END, some r.responseEnd)] }

/-! ## addHeaders (CORS trace-header propagation gate) -/

/-- Observable outcome of `addHeaders`: the headers set on the outgoing
request through `xhr.setRequestHeader`, and whether the debug skip message
was logged. -/
structure AddHeadersResult where
  setOnRequest : List (String × String)
  debugLogged : Bool
  deriving DecidableEq

/-- From src/instrumentations/xhr.ts, `addHeaders` (identical in both
implementations): `carrier` is what `api.propagation.inject` writes into a
fresh carrier object in the current context. When the URL fails the
allow-list check nothing is set on the request and the skip is logged at
debug level only when the carrier is non-empty; otherwise every carrier
entry is set on the request. -/
def addHeaders (carrier : List (String × String)) (spanUrl : String)
    (propagateTraceHeaderCorsUrls : Option PropagateTraceHeaderCorsUrls) : AddHeadersResult :=
  let url := (parseUrl spanUrl).href
  if !(shouldPropagateTraceHeaders url propagateTraceHeaderCorsUrls) then
    { setOnRequest := [], debugLogged := decide (0 < carrier.length) }
  else
    { setOnRequest := carrier, debugLogged := false }

/-! ## Request body capture (later revision of xhr.ts, networkBodyCapture) -/

/-- Body size ceiling from the source: `5 * 1024`. -/
def MAX_BODY_LENGTH : Nat := 5 * 1024

/-- The body argument of the patched `send`. A JS string is a sequence of
code units, embedded as `List Char`. A non-string body carries its
`JSON.stringify` serialization when stringification succeeds, and `none`
when it throws; `typeName` is the `typeof` of the body. -/
inductive RequestBody where
  | str (value : List Char)
  | nonString (serialized : Option (List Char)) (typeName : String)

/-- The body string the patched `send` computes under `networkBodyCapture`:
pass-through for a string body, `JSON.stringify` for a non-string body,
and the typed placeholder when stringification throws. -/
def serializeRequestBody : RequestBody → List Char
  | .str value => value
  | .nonString (some j) _ => j
  | .nonString none typeName => ("[object of type " ++ typeName ++ "]").data

/-- The value of the `http.request.body` span attribute:
`body.slice(0, MAX_BODY_LENGTH)`. -/
def capturedRequestBody (b : RequestBody) : List Char :=
  (serializeRequestBody b).take MAX_BODY_LENGTH

/-! ## Closure based implementation (`instrumentXHR`, installed by init) -/

namespace InstrumentXHR

/-- State of the closure based instrumentation for one request handle:
the registry entry, the span table, the task counter, and how many
`readystatechange` completion listeners previous `send` calls have attached
to the handle (the source never removes them). -/
structure State where
  xhrMem : Option XhrMem := none
  spans : List SpanRec := []
  tasksCount : Int := 0
  readyStateChangeListeners : Nat := 0
  deriving DecidableEq

/-- `clearXhrMem`: deletes the registry entry when present; nothing else is
torn down. -/
def clearXhrMem (s : State) : State :=
  match s.xhrMem with
  | some _ => { s with xhrMem := none }
  | none => s

/-- `createSpan`: returns nothing when the URL is ignored (only a debug
message is logged); otherwise starts a span named by the uppercased method
with the method, URL and component attributes, records the `open` event,
evicts any previous registry entry and stores the new request state. -/
def createSpan (config : XhrConfig) (url method : String) (s : State) :
    Option Nat × State :=
  if isUrlIgnored url config.ignoreUrls then
    (none, s)
  else
    let spanId := s.spans.length
    let currentSpan : SpanRec :=
      { name := method.toUpper
        attrs := [(SemanticAttributes.HTTP_METHOD, .str method),
                  (SemanticAttributes.HTTP_URL, .str (parseUrl url).href),
                  (AttributeNames.COMPONENT, .str "http")]
        events := [(EventNames.METHOD_OPEN, none)] }
    let s := { s with spans := s.spans ++ [currentSpan] }
    let s := clearXhrMem s
    (some spanId, { s with xhrMem := some { span := spanId, spanUrl := url } })

/-- The patched `XMLHttpRequest.prototype.open`: calls `createSpan` and
always invokes the original open (the boolean in the result). -/
def openPatched (config : XhrConfig) (method url : String) (s : State) : State × Bool :=
  ((createSpan config url method s).2, true)

/-- The patched `XMLHttpRequest.prototype.send`: without a registry entry
the original send runs uninstrumented; otherwise the task counter is
incremented, `sendStartTime` recorded, the `send` event added and the
`readystatechange` completion listener attached (header injection and
header/body capture act on the request handle and are modelled by
`addHeaders` and `capturedRequestBody`). In the model `span` and `spanUrl`
are always present, so the `currentSpan && spanUrl` guard is always taken.
The original send is always invoked (the boolean in the result). -/
def sendPatched (hrNow : Nat) (s : State) : State × Bool :=
  match s.xhrMem with
  | none => (s, true)
  | some mem =>
    let s := { s with tasksCount := s.tasksCount + 1 }
    let mem := { mem with sendStartTime := some hrNow }
    let s := { s with spans := addEventAt s.spans mem.span EventNames.METHOD_SEND none }
    let s := { s with readyStateChangeListeners := s.readyStateChangeListeners + 1 }
    ({ s with xhrMem := some mem }, true)

/-- `_addFinalSpanAttributes` of the closure implementation: status code
and status text when present, then host and scheme of the span URL (the
model always has a string span URL, so the `typeof` guard is taken). -/
def _addFinalSpanAttributes (mem : XhrMem) (s : State) : State :=
  let parsedUrl := parseUrl mem.spanUrl
  let s :=
    match mem.status with
    | some v => { s with spans := setAttrAt s.spans mem.span SemanticAttributes.HTTP_STATUS_CODE (.nat v) }
    | none => s
  let s :=
    match mem.statusText with
    | some v => { s with spans := setAttrAt s.spans mem.span AttributeNames.HTTP_STATUS_TEXT (.str v) }
    | none => s
  let s := { s with spans := setAttrAt s.spans mem.span SemanticAttributes.HTTP_HOST (.str parsedUrl.host) }
  let scheme := AttrVal.str (parsedUrl.protocol.replace ":" "")
  { s with spans := setAttrAt s.spans mem.span SemanticAttributes.HTTP_SCHEME scheme }

/-- `_clearResources` of the closure implementation: when the task counter
is zero the registry is rebuilt as a fresh map (every entry dropped). -/
def _clearResources (s : State) : State :=
  if s.tasksCount == 0 then { s with xhrMem := none } else s

/-- `endSpan` of the closure implementation, the terminal event path: a
missing registry entry makes the whole call a no-op; otherwise status and
status text are captured, the entry deleted, and the span finalized
synchronously (terminal event added at `Date.now()`, final attributes set,
`span.end` at that same timestamp, task counter decremented, conditional
registry clearing). `now` is `Date.now()` at the terminal event. -/
def endSpan (eventName : String) (xhrStatus : Nat) (xhrStatusText : String) (now : Nat)
    (s : State) : State :=
  match s.xhrMem with
  | none => s
  | some mem =>
    let mem := { mem with status := some xhrStatus, statusText := some xhrStatusText }
    let s := { s with xhrMem := none }
    let endTime := now
    let s := { s with spans := addEventAt s.spans mem.span eventName (some endTime) }
    let s := _addFinalSpanAttributes mem s
    let s := { s with spans := endSpanAt s.spans mem.span endTime }
    let s := { s with tasksCount := s.tasksCount - 1 }
    _clearResources s

end InstrumentXHR

/-! ## Class based implementation (`XMLHttpRequestInstrumentation`) -/

namespace XMLHttpRequestInstrumentation

/-- A finalization scheduled by `setTimeout` in `endSpan`: the event name,
the detached `XhrMem` snapshot, the captured `hrTime()` and `Date.now()`
values and the timer delay. -/
structure PendingFinalization where
  eventName : String
  mem : XhrMem
  performanceEndTime : Nat
  endTime : Nat
  delayMs : Nat
  deriving DecidableEq

/-- State of the class based instrumentation for one request handle.
`listenersRegistered` records whether the five completion listeners from
`send` are attached to the handle; `teardownRuns` counts invocations of the
`callbackToRemoveEvents` capability and `observerDisconnects` counts
observer disconnections it performed; `pending` is the queue of scheduled
finalization timers; `performanceResourceBuffer` is the global
`otperformance` resource-entry buffer used as fallback. -/
structure State where
  xhrMem : Option XhrMem := none
  spans : List SpanRec := []
  tasksCount : Int := 0
  usedResources : List Nat := []
  listenersRegistered : Bool := false
  teardownRuns : Nat := 0
  observerDisconnects : Nat := 0
  pending : List PendingFinalization := []
  performanceResourceBuffer : List PerfResourceTiming := []
  deriving DecidableEq

/-- Invoking the `callbackToRemoveEvents` capability of `mem`: `unregister`
removes the five completion listeners and clears the callback on whatever
entry is currently in the registry, then the observer of the snapshot is
disconnected when one was created. -/
def runCallbackToRemoveEvents (mem : XhrMem) (s : State) : State :=
  let s := { s with
    listenersRegistered := false
    xhrMem := s.xhrMem.map (fun m => { m with callbackToRemoveEvents := false })
    teardownRuns := s.teardownRuns + 1 }
  match mem.createdResources with
  | some _ => { s with observerDisconnects := s.observerDisconnects + 1 }
  | none => s

/-- `_cleanPreviousSpanInformation`: when the handle has a registry entry,
its teardown capability is invoked when set, and the entry is deleted. -/
def _cleanPreviousSpanInformation (s : State) : State :=
  match s.xhrMem with
  | some mem =>
    let s := if mem.callbackToRemoveEvents then runCallbackToRemoveEvents mem s else s
    { s with xhrMem := none }
  | none => s

/-- `_createSpan`: returns nothing when the URL is ignored (only a debug
message is logged); otherwise starts the span, records the `open` event,
cleans the previous span information and stores the new request state. -/
def _createSpan (config : XhrConfig) (url method : String) (s : State) :
    Option Nat × State :=
  if isUrlIgnored url config.ignoreUrls then
    (none, s)
  else
    let spanId := s.spans.length
    let currentSpan : SpanRec :=
      { name := method.toUpper
        attrs := [(SemanticAttributes.HTTP_METHOD, .str method),
                  (SemanticAttributes.HTTP_URL, .str (parseUrl url).href),
                  (AttributeNames.COMPONENT, .str "http")]
        events := [(EventNames.METHOD_OPEN, none)] }
    let s := { s with spans := s.spans ++ [currentSpan] }
    let s := _cleanPreviousSpanInformation s
    (some spanId, { s with xhrMem := some { span := spanId, spanUrl := url } })

/-- The patched `open` of the class implementation. -/
def openPatched (config : XhrConfig) (method url : String) (s : State) : State × Bool :=
  ((_createSpan config url method s).2, true)

/-- `_markResourceAsUsed`: adds the entry to the shared used-resources
set. -/
def _markResourceAsUsed (r : PerfResourceTiming) (s : State) : State :=
  { s with usedResources := s.usedResources ++ [r.id] }

/-- The child span `_addChildSpan` produces: started at the preflight
fetchStart, given the preflight network events, ended immediately at the
preflight responseEnd. -/
def preflightChildSpan (cors : PerfResourceTiming) : SpanRec :=
  let started : SpanRec := { name := "CORS Preflight", startTime := some cors.fetchStart }
  let withEvents := addSpanNetworkEvents cors started
  { withEvents with endCount := 1, endTime := some cors.responseEnd }

/-- `_addChildSpan`: a child span named "CORS Preflight" started at the
preflight fetchStart, with its network events, ended immediately at the
preflight responseEnd. -/
def _addChildSpan (cors : PerfResourceTiming) (s : State) : State :=
  { s with spans := s.spans ++ [preflightChildSpan cors] }

/-- `_findResourceAndAddNetworkEvents`: a no-op when span URL, start time,
end time or `createdResources` is absent; otherwise the observer entries
are used (falling back to the global resource buffer when none were
collected), `getResource` selects the main and preflight entries among
those not already used, the selected entries are marked used synchronously
within this step, the preflight child span is created, and the network
events of the main entry are added to the span. The second component lists
the entry identities this step attributed to the span. -/
def _findResourceAndAddNetworkEvents (mem : XhrMem) (spanId : Nat) (spanUrl : Option String)
    (startTime endTime : Option Nat) (s : State) : State × List Nat :=
  match spanUrl, startTime, endTime, mem.createdResources with
  | some url, some st, some et, some created =>
    let resources := if created.entries.length == 0 then s.performanceResourceBuffer
                     else created.entries
    let res := getResource (parseUrl url).href st et resources s.usedResources
    match res.mainRequest with
    | none => (s, [])
    | some mainRequest =>
      let s := _markResourceAsUsed mainRequest s
      match res.corsPreFlightRequest with
      | some cors =>
        let s := _addChildSpan cors s
        let s := _markResourceAsUsed cors s
        ({ s with spans := modifyAt s.spans spanId (addSpanNetworkEvents mainRequest) },
         [mainRequest.id, cors.id])
      | none =>
        ({ s with spans := modifyAt s.spans spanId (addSpanNetworkEvents mainRequest) },
         [mainRequest.id])
  | _, _, _, _ => (s, [])

/-- `_addFinalSpanAttributes` of the class implementation: like the closure
one, plus the user agent attribute. -/
def _addFinalSpanAttributes (mem : XhrMem) (s : State) : State :=
  let parsedUrl := parseUrl mem.spanUrl
  let s :=
    match mem.status with
    | some v => { s with spans := setAttrAt s.spans mem.span SemanticAttributes.HTTP_STATUS_CODE (.nat v) }
    | none => s
  let s :=
    match mem.statusText with
    | some v => { s with spans := setAttrAt s.spans mem.span AttributeNames.HTTP_STATUS_TEXT (.str v) }
    | none => s
  let s := { s with spans := setAttrAt s.spans mem.span SemanticAttributes.HTTP_HOST (.str parsedUrl.host) }
  let scheme := AttrVal.str (parsedUrl.protocol.replace ":" "")
  let s := { s with spans := setAttrAt s.spans mem.span SemanticAttributes.HTTP_SCHEME scheme }
  let agent := AttrVal.str UserAgent.getUserAgent
  { s with spans := setAttrAt s.spans mem.span SemanticAttributes.HTTP_USER_AGENT agent }

/-- `_clearResources` of the class implementation: when the task counter is
zero and the configuration requests it, the global resource buffer is
cleared and registry and used-resources set are rebuilt. -/
def _clearResources (config : XhrConfig) (s : State) : State :=
  if s.tasksCount == 0 && config.clearTimingResources then
    { s with performanceResourceBuffer := [], xhrMem := none, usedResources := [] }
  else s

/-- `endSpan` of the class implementation, the terminal event path: a
missing registry entry makes the call a no-op; otherwise status and status
text are captured, the entry is deleted synchronously, `hrTime()` and
`Date.now()` are captured, and the finalization is scheduled through
`setTimeout` with delay `OBSERVER_WAIT_TIME_MS` over the detached snapshot.
The completion listeners are NOT unregistered here. -/
def endSpan (eventName : String) (xhrStatus : Nat) (xhrStatusText : String)
    (hrNow now : Nat) (s : State) : State :=
  match s.xhrMem with
  | none => s
  | some mem =>
    let mem := { mem with status := some xhrStatus, statusText := some xhrStatusText }
    let s := { s with xhrMem := none }
    { s with pending := s.pending ++
        [{ eventName := eventName, mem := mem, performanceEndTime := hrNow, endTime := now,
           delayMs := OBSERVER_WAIT_TIME_MS }] }

/-- Closing stage of `endSpanTimeout` (split out for proof modularity, the
composition below is the source body in order): final attributes, span end
at the captured terminal timestamp, task counter decrement, conditional
cache clearing. -/
def endSpanFinalize (config : XhrConfig) (pmem : XhrMem) (i : Nat) (t : Nat)
    (s : State) : State :=
  let s := _addFinalSpanAttributes pmem s
  let s := { s with spans := endSpanAt s.spans i t }
  let s := { s with tasksCount := s.tasksCount - 1 }
  _clearResources config s

/-- `endSpanTimeout` after the teardown invocation: resource correlation,
terminal event at the captured `Date.now()`, then `endSpanFinalize`. -/
def endSpanTimeoutTail (config : XhrConfig) (p : PendingFinalization) (s : State) : State :=
  let s := (_findResourceAndAddNetworkEvents p.mem p.mem.span (some p.mem.spanUrl)
              p.mem.sendStartTime (some p.performanceEndTime) s).1
  let s := { s with spans := addEventAt s.spans p.mem.span p.eventName (some p.endTime) }
  endSpanFinalize config p.mem p.mem.span p.endTime s

/-- `endSpanTimeout`, the deferred finalization body: invokes the teardown
capability when set (listeners unregistered, observer disconnected), runs
the resource correlation, adds the terminal event at the captured
`Date.now()`, sets the final attributes, ends the span at that timestamp,
decrements the task counter and conditionally clears the caches. -/
def endSpanTimeout (config : XhrConfig) (p : PendingFinalization) (s : State) : State :=
  let s := if p.mem.callbackToRemoveEvents then runCallbackToRemoveEvents p.mem s else s
  endSpanTimeoutTail config p s

/-- The patched `send` of the class implementation: without a registry
entry the original send runs uninstrumented; otherwise the task counter is
incremented, `sendStartTime` recorded, the `send` event added, the five
completion listeners attached, the teardown capability installed, headers
injected (modelled by `addHeaders`) and the resource observer armed. -/
def patchSend (hrNow : Nat) (s : State) : State × Bool :=
  match s.xhrMem with
  | none => (s, true)
  | some mem =>
    let s := { s with tasksCount := s.tasksCount + 1 }
    let mem := { mem with sendStartTime := some hrNow }
    let s := { s with spans := addEventAt s.spans mem.span EventNames.METHOD_SEND none }
    let s := { s with listenersRegistered := true }
    let mem := { mem with callbackToRemoveEvents := true }
    let mem := { mem with createdResources := some { entries := [], observerConnected := true } }
    ({ s with xhrMem := some mem }, true)

/-- `onError` completion listener. -/
def onError (status : Nat) (statusText : String) (hrNow now : Nat) (s : State) : State :=
  endSpan EventNames.EVENT_ERROR status statusText hrNow now s

/-- `onAbort` completion listener. -/
def onAbort (status : Nat) (statusText : String) (hrNow now : Nat) (s : State) : State :=
  endSpan EventNames.EVENT_ABORT status statusText hrNow now s

/-- `onTimeout` completion listener. -/
def onTimeout (status : Nat) (statusText : String) (hrNow now : Nat) (s : State) : State :=
  endSpan EventNames.EVENT_TIMEOUT status statusText hrNow now s

/-- `onLoad` completion listener: a status below 299 ends the span with the
load event, any other status ends it with the error event. -/
def onLoad (status : Nat) (statusText : String) (hrNow now : Nat) (s : State) : State :=
  if status < 299 then endSpan EventNames.EVENT_LOAD status statusText hrNow now s
  else endSpan EventNames.EVENT_ERROR status statusText hrNow now s

/-- `onReadyStateChange` completion listener: only the DONE ready state is
terminal (the headers-received branch of the source is commented out). -/
def onReadyStateChange (readyState status : Nat) (statusText : String) (hrNow now : Nat)
    (s : State) : State :=
  if readyState == XHR_DONE then
    endSpan EventNames.EVENT_READY_STATE_CHANGE status statusText hrNow now s
  else s

/-- A terminal-style event delivered to the handle, dispatched to the
registered completion listener. -/
inductive TerminalEvent where
  | load
  | error
  | abort
  | timeout
  | readystatechange (readyState : Nat)
  deriving DecidableEq

/-- Whether the event reaches the `endSpan` terminal path (every kind does,
except a ready-state change below DONE). -/
def TerminalEvent.ends : TerminalEvent → Bool
  | .readystatechange readyState => readyState == XHR_DONE
  | _ => true

def dispatchTerminal : TerminalEvent → Nat → String → Nat → Nat → State → State
  | .load, status, stx, hrNow, now, s => onLoad status stx hrNow now s
  | .error, status, stx, hrNow, now, s => onError status stx hrNow now s
  | .abort, status, stx, hrNow, now, s => onAbort status stx hrNow now s
  | .timeout, status, stx, hrNow, now, s => onTimeout status stx hrNow now s
  | .readystatechange readyState, status, stx, hrNow, now, s =>
      onReadyStateChange readyState status stx hrNow now s

/-- One event-queue step: a terminal event delivered to the handle, or the
oldest scheduled finalization timer firing. -/
inductive CStep where
  | terminal (ev : TerminalEvent) (status : Nat) (statusText : String) (hrNow now : Nat)
  | fireTimeout
  deriving DecidableEq

def step (config : XhrConfig) : CStep → State → State
  | .terminal ev status stx hrNow now, s => dispatchTerminal ev status stx hrNow now s
  | .fireTimeout, s =>
    match s.pending with
    | [] => s
    | p :: rest => endSpanTimeout config p { s with pending := rest }

def run (config : XhrConfig) (steps : List CStep) (s : State) : State :=
  steps.foldl (fun s c => step config c s) s

/-- Whether a step list delivers at least one event that reaches the
terminal path. -/
def hasEndingTerminal (steps : List CStep) : Bool :=
  steps.any (fun c =>
    match c with
    | .terminal ev _ _ _ _ => ev.ends
    | .fireTimeout => false)

/-- Phase of one tracked request: armed (state registered, nothing ended,
nothing scheduled). -/
def RegArmed (mem0 : XhrMem) (s : State) : Prop :=
  s.xhrMem = some mem0 ∧ s.pending = [] ∧ endCountAt s.spans mem0.span = 0

/-- Phase: a terminal event ran, the registry entry is gone and exactly one
finalization of this span is scheduled; the span is not ended yet. -/
def RegScheduled (mem0 : XhrMem) (s : State) : Prop :=
  s.xhrMem = none ∧ (∃ p, s.pending = [p] ∧ p.mem.span = mem0.span) ∧
    endCountAt s.spans mem0.span = 0

/-- Phase: the finalization ran and the span was ended exactly once. -/
def RegDone (mem0 : XhrMem) (s : State) : Prop :=
  s.xhrMem = none ∧ s.pending = [] ∧ endCountAt s.spans mem0.span = 1

/-- Invariant tying the three phases together. -/
def C1Inv (mem0 : XhrMem) (s : State) : Prop :=
  mem0.span < s.spans.length ∧ (RegArmed mem0 s ∨ RegScheduled mem0 s ∨ RegDone mem0 s)

end XMLHttpRequestInstrumentation

/-! ## HyperDXRum.init (src/splunkRum.ts) -/

/-- `ReactNativeConfiguration`, restricted to the fields the modelled
branches of `init` read. The required `service` and `apiKey` fields are
embedded as `Option String` so that a runtime-missing value is `none`; the
JS falsiness check also rejects the empty string. -/
structure ReactNativeConfiguration where
  beaconEndpoint : Option String := none
  apiKey : Option String := none
  service : Option String := none
  allowInsecureBeacon : Bool := false
  debug : Bool := false

/-- JS falsiness of an optional string. -/
def falsyString : Option String → Bool
  | none => true
  | some s => s.isEmpty

/-- Observable effects of one `init` call. -/
structure InitResult where
  returnedSelf : Bool
  errorLogged : Bool
  warnLogged : Bool
  providerRegistered : Bool
  xhrInstrumentationInstalled : Bool
  initializedAfter : Bool
  deriving DecidableEq

namespace HyperDXRum

/-- `HyperDXRum.init`: the second call is rejected with a warning; a falsy
service name or API key, or an insecure beacon endpoint without the
override, aborts with a logged error before any tracer provider is
registered or any instrumentation installed; otherwise the provider is
registered, the XHR and error instrumentations are installed and `init`
returns the object. `alreadyInit` is the module-level flag. -/
def init (alreadyInit : Bool) (config : ReactNativeConfiguration) : InitResult :=
  if alreadyInit then
    { returnedSelf := false, errorLogged := false, warnLogged := true,
      providerRegistered := false, xhrInstrumentationInstalled := false,
      initializedAfter := true }
  else if falsyString config.service then
    { returnedSelf := false, errorLogged := true, warnLogged := false,
      providerRegistered := false, xhrInstrumentationInstalled := false,
      initializedAfter := false }
  else if falsyString config.apiKey then
    { returnedSelf := false, errorLogged := true, warnLogged := false,
      providerRegistered := false, xhrInstrumentationInstalled := false,
      initializedAfter := false }
  else if (match config.beaconEndpoint with
           | some b => !(b.startsWith "https") && !config.allowInsecureBeacon
           | none => false) then
    { returnedSelf := false, errorLogged := true, warnLogged := false,
      providerRegistered := false, xhrInstrumentationInstalled := false,
      initializedAfter := false }
  else
    { returnedSelf := true, errorLogged := false, warnLogged := false,
      providerRegistered := true, xhrInstrumentationInstalled := true,
      initializedAfter := true }

end HyperDXRum

/-! ## Concrete states used by witnesses and counterexamples -/

def c1cfg : XhrConfig := {}

def c1mem : XhrMem :=
  { span := 0, spanUrl := "https://x/y", sendStartTime := some 5,
    callbackToRemoveEvents := true,
    createdResources := some { entries := [], observerConnected := true } }

/-- A class-implementation state right after open and send for `c1mem`. -/
def c1s0 : XMLHttpRequestInstrumentation.State :=
  { xhrMem := some c1mem, spans := [{ name := "GET" }], tasksCount := 1,
    listenersRegistered := true }

/-- An event schedule delivering two terminal events (load, then
ready-state DONE) for the same handle, then firing the scheduled
finalization timer. -/
def c1steps : List XMLHttpRequestInstrumentation.CStep :=
  [XMLHttpRequestInstrumentation.CStep.terminal XMLHttpRequestInstrumentation.TerminalEvent.load
     200 "OK" 20 25,
   XMLHttpRequestInstrumentation.CStep.terminal
     (XMLHttpRequestInstrumentation.TerminalEvent.readystatechange 4) 200 "OK" 21 26,
   XMLHttpRequestInstrumentation.CStep.fireTimeout]

def c2entryA : PerfResourceTiming :=
  { id := 0, name := "https://x/y", initiatorType := "xmlhttprequest",
    fetchStart := 10, responseEnd := 20 }

def c2entryB : PerfResourceTiming :=
  { id := 1, name := "https://x/y", initiatorType := "xmlhttprequest",
    fetchStart := 12, responseEnd := 22 }

/-- Request state of the first of two overlapping requests to the same
URL, with two same-URL entries visible to both correlation steps. -/
def c2mem1 : XhrMem :=
  { span := 0, spanUrl := "https://x/y", sendStartTime := some 1,
    createdResources := some { entries := [c2entryA, c2entryB], observerConnected := true } }

/-- Request state of the second overlapping request (same URL, own span). -/
def c2mem2 : XhrMem := { c2mem1 with span := 1 }

def c2s0 : XMLHttpRequestInstrumentation.State :=
  { spans := [{ name := "GET" }, { name := "GET" }], tasksCount := 2 }

def c3cfg : XhrConfig := {}

def c3mem : XhrMem :=
  { span := 0, spanUrl := "https://x/y", sendStartTime := some 5,
    callbackToRemoveEvents := true,
    createdResources := some { entries := [], observerConnected := true } }

/-- A class-implementation state right after open and send for `c3mem`. -/
def c3s0 : XMLHttpRequestInstrumentation.State :=
  { xhrMem := some c3mem, spans := [{ name := "GET" }], tasksCount := 1,
    listenersRegistered := true }

/-- A closure-implementation state right after open and send: one span,
one armed readystatechange listener. -/
def c3closState : InstrumentXHR.State :=
  { xhrMem := some { span := 0, spanUrl := "https://x/y", sendStartTime := some 5 },
    spans := [{ name := "GET" }], tasksCount := 1, readyStateChangeListeners := 1 }

def c4cfg : XhrConfig := {}

/-- A closure-implementation state after open and send of a first request
on the handle (its completion listener is still attached). -/
def c4closState : InstrumentXHR.State :=
  { xhrMem := some { span := 0, spanUrl := "https://b/1", sendStartTime := some 2 },
    spans := [{ name := "GET" }], tasksCount := 1, readyStateChangeListeners := 1 }

def c4mem : XhrMem :=
  { span := 0, spanUrl := "https://b/1", sendStartTime := some 2,
    callbackToRemoveEvents := true,
    createdResources := some { entries := [], observerConnected := true } }

/-- A class-implementation state after open and send of a first request on
the handle. -/
def c4s0 : XMLHttpRequestInstrumentation.State :=
  { xhrMem := some c4mem, spans := [{ name := "GET" }], tasksCount := 1,
    listenersRegistered := true }

def c5cfg : XhrConfig := { ignoreUrls := some [UrlPattern.str "https://ignored.test/x"] }

def c5s0 : InstrumentXHR.State := {}

def c8mem : XhrMem :=
  { span := 0, spanUrl := "https://x/y", sendStartTime := some 5,
    callbackToRemoveEvents := true,
    createdResources := some { entries := [], observerConnected := true } }

/-- A class-implementation state right after open and send for `c8mem`. -/
def c8s0 : XMLHttpRequestInstrumentation.State :=
  { xhrMem := some c8mem, spans := [{ name := "GET" }], tasksCount := 1,
    listenersRegistered := true }

/-- A configuration with the required service name missing. -/
def c9config : ReactNativeConfiguration := { apiKey := some "key", service := none }

def c10cfg : XhrConfig := { ignoreUrls := some [UrlPattern.str "https://ignored.test/x"] }

def c10mem : XhrMem := { span := 0, spanUrl := "https://a/1", sendStartTime := some 3 }

/-- A closure-implementation state in which a previous instrumented request
was opened and sent on the handle but never reached a terminal event. -/
def c10s0 : InstrumentXHR.State :=
  { xhrMem := some c10mem, spans := [{ name := "POST" }], tasksCount := 1,
    readyStateChangeListeners := 1 }

/-! # Theorems -/

/-! ## Generic helper lemmas about the span table -/

theorem length_modifyAt {α : Type} (l : List α) (i : Nat) (f : α → α) :
    (modifyAt l i f).length = l.length := by
  induction l generalizing i with
  | nil => rfl
  | cons x xs ih =>
    cases i with
    | zero => rfl
    | succ n => simp [modifyAt, ih]

theorem modifyAt_of_length_le {α : Type} (l : List α) (i : Nat) (f : α → α)
    (h : l.length ≤ i) : modifyAt l i f = l := by
  induction l generalizing i with
  | nil => rfl
  | cons x xs ih =>
    cases i with
    | zero => simp at h
    | succ n =>
      simp only [modifyAt]
      rw [ih n (by simpa using h)]

theorem getD_modifyAt_self {α : Type} (l : List α) (i : Nat) (f : α → α) (d : α)
    (h : i < l.length) : (modifyAt l i f).getD i d = f (l.getD i d) := by
  induction l generalizing i with
  | nil => simp at h
  | cons x xs ih =>
    cases i with
    | zero => rfl
    | succ n =>
      simpa [modifyAt, List.getD_cons_succ] using ih n (by simpa using h)

theorem getD_modifyAt_ne {α : Type} (l : List α) (i j : Nat) (f : α → α) (d : α)
    (h : j ≠ i) : (modifyAt l i f).getD j d = l.getD j d := by
  induction l generalizing i j with
  | nil => rfl
  | cons x xs ih =>
    cases i with
    | zero =>
      cases j with
      | zero => exact absurd rfl h
      | succ m => simp [modifyAt, List.getD_cons_succ]
    | succ n =>
      cases j with
      | zero => simp [modifyAt, List.getD_cons_zero]
      | succ m =>
        simpa [modifyAt, List.getD_cons_succ] using ih n m (fun hh => h (by simp [hh]))

theorem getD_append_left {α : Type} (l l2 : List α) (i : Nat) (d : α)
    (h : i < l.length) : (l ++ l2).getD i d = l.getD i d := by
  induction l generalizing i with
  | nil => simp at h
  | cons x xs ih =>
    cases i with
    | zero => rfl
    | succ n => simpa [List.getD_cons_succ] using ih n (by simpa using h)

theorem endCountAt_modifyAt (l : List SpanRec) (i j : Nat) (f : SpanRec → SpanRec)
    (hf : ∀ sp, (f sp).endCount = sp.endCount) :
    endCountAt (modifyAt l i f) j = endCountAt l j := by
  by_cases hj : j = i
  · subst hj
    by_cases hl : j < l.length
    · unfold endCountAt
      rw [getD_modifyAt_self l j f default hl, hf]
    · rw [modifyAt_of_length_le l j f (Nat.le_of_not_lt hl)]
  · unfold endCountAt
    rw [getD_modifyAt_ne l i j f default hj]

theorem eventsAt_modifyAt (l : List SpanRec) (i j : Nat) (f : SpanRec → SpanRec)
    (hf : ∀ sp, (f sp).events = sp.events) :
    eventsAt (modifyAt l i f) j = eventsAt l j := by
  by_cases hj : j = i
  · subst hj
    by_cases hl : j < l.length
    · unfold eventsAt
      rw [getD_modifyAt_self l j f default hl, hf]
    · rw [modifyAt_of_length_le l j f (Nat.le_of_not_lt hl)]
  · unfold eventsAt
    rw [getD_modifyAt_ne l i j f default hj]

theorem endCountAt_setAttrAt (l : List SpanRec) (i j : Nat) (k : String) (v : AttrVal) :
    endCountAt (setAttrAt l i k v) j = endCountAt l j :=
  endCountAt_modifyAt l i j _ (fun _ => rfl)

theorem endCountAt_addEventAt (l : List SpanRec) (i j : Nat) (n : String) (t : Option Nat) :
    endCountAt (addEventAt l i n t) j = endCountAt l j :=
  endCountAt_modifyAt l i j _ (fun _ => rfl)

theorem eventsAt_setAttrAt (l : List SpanRec) (i j : Nat) (k : String) (v : AttrVal) :
    eventsAt (setAttrAt l i k v) j = eventsAt l j :=
  eventsAt_modifyAt l i j _ (fun _ => rfl)

theorem eventsAt_endSpanAt (l : List SpanRec) (i j : Nat) (t : Nat) :
    eventsAt (endSpanAt l i t) j = eventsAt l j :=
  eventsAt_modifyAt l i j _ (fun _ => rfl)

theorem endCountAt_endSpanAt_self (l : List SpanRec) (i : Nat) (t : Nat)
    (h : i < l.length) : endCountAt (endSpanAt l i t) i = endCountAt l i + 1 := by
  unfold endCountAt endSpanAt
  rw [getD_modifyAt_self l i _ default h]

theorem endTimeAt_endSpanAt_self (l : List SpanRec) (i : Nat) (t : Nat)
    (h : i < l.length) : endTimeAt (endSpanAt l i t) i = some t := by
  unfold endTimeAt endSpanAt
  rw [getD_modifyAt_self l i _ default h]

theorem eventsAt_addEventAt_self (l : List SpanRec) (i : Nat) (n : String) (t : Option Nat)
    (h : i < l.length) : eventsAt (addEventAt l i n t) i = eventsAt l i ++ [(n, t)] := by
  unfold eventsAt addEventAt
  rw [getD_modifyAt_self l i _ default h]

theorem length_setAttrAt (l : List SpanRec) (i : Nat) (k : String) (v : AttrVal) :
    (setAttrAt l i k v).length = l.length := length_modifyAt l i _

theorem length_addEventAt (l : List SpanRec) (i : Nat) (n : String) (t : Option Nat) :
    (addEventAt l i n t).length = l.length := length_modifyAt l i _

theorem length_endSpanAt (l : List SpanRec) (i : Nat) (t : Nat) :
    (endSpanAt l i t).length = l.length := length_modifyAt l i _

theorem endCountAt_append (l l2 : List SpanRec) (j : Nat) (h : j < l.length) :
    endCountAt (l ++ l2) j = endCountAt l j := by
  unfold endCountAt
  rw [getD_append_left l l2 j default h]

theorem eventsAt_append (l l2 : List SpanRec) (j : Nat) (h : j < l.length) :
    eventsAt (l ++ l2) j = eventsAt l j := by
  unfold eventsAt
  rw [getD_append_left l l2 j default h]

/-! ## Lemmas about the closure based implementation -/

theorem InstrumentXHR.clearResources_spans (s : InstrumentXHR.State) :
    (InstrumentXHR._clearResources s).spans = s.spans := by
  unfold InstrumentXHR._clearResources
  cases h : (s.tasksCount == 0) <;> simp [h]

theorem InstrumentXHR.clearResources_tasksCount (s : InstrumentXHR.State) :
    (InstrumentXHR._clearResources s).tasksCount = s.tasksCount := by
  unfold InstrumentXHR._clearResources
  cases h : (s.tasksCount == 0) <;> simp [h]

theorem InstrumentXHR.clearResources_listeners (s : InstrumentXHR.State) :
    (InstrumentXHR._clearResources s).readyStateChangeListeners
      = s.readyStateChangeListeners := by
  unfold InstrumentXHR._clearResources
  cases h : (s.tasksCount == 0) <;> simp [h]

theorem InstrumentXHR.clearResources_xhrMem (s : InstrumentXHR.State) :
    (InstrumentXHR._clearResources s).xhrMem
      = if s.tasksCount == 0 then none else s.xhrMem := by
  unfold InstrumentXHR._clearResources
  cases h : (s.tasksCount == 0) <;> simp [h]

theorem InstrumentXHR.addFinal_xhrMem (mem : XhrMem) (s : InstrumentXHR.State) :
    (InstrumentXHR._addFinalSpanAttributes mem s).xhrMem = s.xhrMem := by
  unfold InstrumentXHR._addFinalSpanAttributes
  cases hst : mem.status <;> cases hstx : mem.statusText <;> simp [hst, hstx]

theorem InstrumentXHR.addFinal_tasksCount (mem : XhrMem) (s : InstrumentXHR.State) :
    (InstrumentXHR._addFinalSpanAttributes mem s).tasksCount = s.tasksCount := by
  unfold InstrumentXHR._addFinalSpanAttributes
  cases hst : mem.status <;> cases hstx : mem.statusText <;> simp [hst, hstx]

theorem InstrumentXHR.addFinal_listeners (mem : XhrMem) (s : InstrumentXHR.State) :
    (InstrumentXHR._addFinalSpanAttributes mem s).readyStateChangeListeners
      = s.readyStateChangeListeners := by
  unfold InstrumentXHR._addFinalSpanAttributes
  cases hst : mem.status <;> cases hstx : mem.statusText <;> simp [hst, hstx]

theorem InstrumentXHR.addFinal_length (mem : XhrMem) (s : InstrumentXHR.State) :
    (InstrumentXHR._addFinalSpanAttributes mem s).spans.length = s.spans.length := by
  unfold InstrumentXHR._addFinalSpanAttributes
  cases hst : mem.status <;> cases hstx : mem.statusText <;>
    simp [hst, hstx, length_setAttrAt]

theorem InstrumentXHR.addFinal_endCountAt (mem : XhrMem) (s : InstrumentXHR.State) (j : Nat) :
    endCountAt (InstrumentXHR._addFinalSpanAttributes mem s).spans j
      = endCountAt s.spans j := by
  unfold InstrumentXHR._addFinalSpanAttributes
  cases hst : mem.status <;> cases hstx : mem.statusText <;>
    simp [hst, hstx, endCountAt_setAttrAt]

theorem InstrumentXHR.addFinal_eventsAt (mem : XhrMem) (s : InstrumentXHR.State) (j : Nat) :
    eventsAt (InstrumentXHR._addFinalSpanAttributes mem s).spans j = eventsAt s.spans j := by
  unfold InstrumentXHR._addFinalSpanAttributes
  cases hst : mem.status <;> cases hstx : mem.statusText <;>
    simp [hst, hstx, eventsAt_setAttrAt]

/-- Composite behaviour of the closure `endSpan` on a handle with a
registered request state: the registry entry is removed, the span receives
the terminal event and is ended exactly once more, synchronously, at the
`Date.now()` of the terminal event, the task counter is decremented, and
the armed listeners are untouched. -/
theorem InstrumentXHR.endSpan_spec (e : String) (st : Nat) (stx : String) (now : Nat)
    (s : InstrumentXHR.State) (mem : XhrMem)
    (hmem : s.xhrMem = some mem) (hlen : mem.span < s.spans.length) :
    (InstrumentXHR.endSpan e st stx now s).xhrMem = none ∧
    endCountAt (InstrumentXHR.endSpan e st stx now s).spans mem.span
      = endCountAt s.spans mem.span + 1 ∧
    endTimeAt (InstrumentXHR.endSpan e st stx now s).spans mem.span = some now ∧
    (e, some now) ∈ eventsAt (InstrumentXHR.endSpan e st stx now s).spans mem.span ∧
    (InstrumentXHR.endSpan e st stx now s).tasksCount = s.tasksCount - 1 ∧
    (InstrumentXHR.endSpan e st stx now s).readyStateChangeListeners
      = s.readyStateChangeListeners := by
  have hlen1 : mem.span < (addEventAt s.spans mem.span e (some now)).length := by
    rw [length_addEventAt]; exact hlen
  refine ⟨?_, ?_, ?_, ?_, ?_, ?_⟩
  · simp only [InstrumentXHR.endSpan, hmem]
    rw [InstrumentXHR.clearResources_xhrMem]
    simp [InstrumentXHR.addFinal_xhrMem]
  · simp only [InstrumentXHR.endSpan, hmem]
    rw [InstrumentXHR.clearResources_spans]
    simp only []
    rw [endCountAt_endSpanAt_self _ _ _ (by rw [InstrumentXHR.addFinal_length]; simpa using hlen1)]
    rw [InstrumentXHR.addFinal_endCountAt]
    simp [endCountAt_addEventAt]
  · simp only [InstrumentXHR.endSpan, hmem]
    rw [InstrumentXHR.clearResources_spans]
    simp only []
    rw [endTimeAt_endSpanAt_self _ _ _ (by rw [InstrumentXHR.addFinal_length]; simpa using hlen1)]
  · simp only [InstrumentXHR.endSpan, hmem]
    rw [InstrumentXHR.clearResources_spans]
    simp only []
    rw [eventsAt_endSpanAt, InstrumentXHR.addFinal_eventsAt]
    simp [eventsAt_addEventAt_self s.spans mem.span e (some now) hlen]
  · simp only [InstrumentXHR.endSpan, hmem]
    rw [InstrumentXHR.clearResources_tasksCount]
    simp [InstrumentXHR.addFinal_tasksCount]
  · simp only [InstrumentXHR.endSpan, hmem]
    rw [InstrumentXHR.clearResources_listeners]
    simp [InstrumentXHR.addFinal_listeners]

/-! ## C5, C10 and the closure-side counterexamples -/

/-- C5: for every open call whose URL matches a configured ignoreUrls
pattern, the instrumentation returns nothing: no span is started and no
RequestState is created (the state, span table included, is unchanged), the
original open still runs, and the original send runs uninstrumented on a
handle carrying no request state. -/
theorem c5_ignored_url_skips_instrumentation (config : XhrConfig) (url method : String)
    (s : InstrumentXHR.State) (hi : isUrlIgnored url config.ignoreUrls = true) :
    InstrumentXHR.createSpan config url method s = (none, s) ∧
    InstrumentXHR.openPatched config method url s = (s, true) ∧
    (∀ hrNow, s.xhrMem = none → InstrumentXHR.sendPatched hrNow s = (s, true)) := by
  refine ⟨?_, ?_, ?_⟩
  · simp [InstrumentXHR.createSpan, hi]
  · simp [InstrumentXHR.openPatched, InstrumentXHR.createSpan, hi]
  · intro hrNow hnone
    simp [InstrumentXHR.sendPatched, hnone]

theorem c5_ignored_url_skips_instrumentation_witness :
    isUrlIgnored "https://ignored.test/x" c5cfg.ignoreUrls = true ∧
    InstrumentXHR.createSpan c5cfg "https://ignored.test/x" "GET" c5s0 = (none, c5s0) ∧
    InstrumentXHR.openPatched c5cfg "GET" "https://ignored.test/x" c5s0 = (c5s0, true) ∧
    InstrumentXHR.sendPatched 7 c5s0 = (c5s0, true) := by
  have h := c5_ignored_url_skips_instrumentation c5cfg "https://ignored.test/x" "GET" c5s0
    (by decide)
  exact ⟨by decide, h.1, h.2.1, h.2.2 7 (by decide)⟩

/-- C10: an open with an ignored URL on a handle that already holds a
RequestState leaves everything in place — the ignore check returns before
the eviction step, so the whole state (registry entry, span table, armed
completion listeners) is unchanged while the original open still runs — and
a subsequent terminal event delivered on the handle still finds the prior
RequestState and ends the prior span. -/
theorem c10_ignored_open_preserves_prior_state (config : XhrConfig) (url method : String)
    (s : InstrumentXHR.State) (mem : XhrMem)
    (hi : isUrlIgnored url config.ignoreUrls = true)
    (hmem : s.xhrMem = some mem) (hlen : mem.span < s.spans.length) :
    InstrumentXHR.openPatched config method url s = (s, true) ∧
    (∀ st stx now,
      (InstrumentXHR.endSpan EventNames.EVENT_READY_STATE_CHANGE st stx now s).xhrMem
        = none ∧
      endCountAt
          (InstrumentXHR.endSpan EventNames.EVENT_READY_STATE_CHANGE st stx now s).spans
          mem.span
        = endCountAt s.spans mem.span + 1 ∧
      (EventNames.EVENT_READY_STATE_CHANGE, some now) ∈
        eventsAt
          (InstrumentXHR.endSpan EventNames.EVENT_READY_STATE_CHANGE st stx now s).spans
          mem.span) := by
  refine ⟨by simp [InstrumentXHR.openPatched, InstrumentXHR.createSpan, hi], ?_⟩
  intro st stx now
  obtain ⟨h1, h2, _, h4, _, _⟩ :=
    InstrumentXHR.endSpan_spec EventNames.EVENT_READY_STATE_CHANGE st stx now s mem hmem hlen
  exact ⟨h1, h2, h4⟩

theorem c10_ignored_open_preserves_prior_state_witness :
    isUrlIgnored "https://ignored.test/x" c10cfg.ignoreUrls = true ∧
    c10s0.xhrMem = some c10mem ∧
    InstrumentXHR.openPatched c10cfg "GET" "https://ignored.test/x" c10s0 = (c10s0, true) ∧
    endCountAt
        (InstrumentXHR.endSpan EventNames.EVENT_READY_STATE_CHANGE 200 "OK" 90 c10s0).spans
        c10mem.span
      = endCountAt c10s0.spans c10mem.span + 1 := by
  have h := c10_ignored_open_preserves_prior_state c10cfg "https://ignored.test/x" "GET"
    c10s0 c10mem (by decide) (by decide) (by decide)
  exact ⟨by decide, by decide, h.1, (h.2 200 "OK" 90).2.1⟩

/-- C4 counterexample: in the closure based `instrumentXHR` installed by
`init`, a second open on a handle that already holds a RequestState (here
armed with one completion listener by the first send) deletes the registry
entry but invokes no teardown — the completion listener from the first send
remains attached after the new RequestState is stored, contrary to the
claim that the prior listeners and observer are torn down. -/
theorem c4_no_teardown_counterexample :
    (InstrumentXHR.createSpan c4cfg "https://b/2" "GET" c4closState).2.readyStateChangeListeners = 1 ∧
    (InstrumentXHR.createSpan c4cfg "https://b/2" "GET" c4closState).2.xhrMem
      = some { span := 1, spanUrl := "https://b/2" } ∧
    c4closState.readyStateChangeListeners = 1 := by
  decide

/-- C3 counterexample: in the closure based `instrumentXHR` installed by
`init`, the terminal handler finalizes synchronously — immediately after
the terminal `endSpan` call returns, the span is already ended (at the
terminal timestamp) and the registry entry is gone; nothing is deferred by
300ms on this path (the closure implementation schedules no timer at all). -/
theorem c3_synchronous_finalization_counterexample :
    endCountAt
        (InstrumentXHR.endSpan EventNames.EVENT_READY_STATE_CHANGE 200 "OK" 1000 c3closState).spans
        0 = 1 ∧
    endTimeAt
        (InstrumentXHR.endSpan EventNames.EVENT_READY_STATE_CHANGE 200 "OK" 1000 c3closState).spans
        0 = some 1000 ∧
    (InstrumentXHR.endSpan EventNames.EVENT_READY_STATE_CHANGE 200 "OK" 1000 c3closState).xhrMem
      = none := by
  decide

/-! ## Lemmas about the class based implementation -/

open XMLHttpRequestInstrumentation in
theorem clearResourcesC_spans (config : XhrConfig) (s : State) :
    (_clearResources config s).spans = s.spans := by
  unfold _clearResources
  cases h : (s.tasksCount == 0 && config.clearTimingResources) <;> simp [h]

open XMLHttpRequestInstrumentation in
theorem clearResourcesC_pending (config : XhrConfig) (s : State) :
    (_clearResources config s).pending = s.pending := by
  unfold _clearResources
  cases h : (s.tasksCount == 0 && config.clearTimingResources) <;> simp [h]

open XMLHttpRequestInstrumentation in
theorem clearResourcesC_tasksCount (config : XhrConfig) (s : State) :
    (_clearResources config s).tasksCount = s.tasksCount := by
  unfold _clearResources
  cases h : (s.tasksCount == 0 && config.clearTimingResources) <;> simp [h]

open XMLHttpRequestInstrumentation in
theorem clearResourcesC_listeners (config : XhrConfig) (s : State) :
    (_clearResources config s).listenersRegistered = s.listenersRegistered := by
  unfold _clearResources
  cases h : (s.tasksCount == 0 && config.clearTimingResources) <;> simp [h]

open XMLHttpRequestInstrumentation in
theorem clearResourcesC_teardownRuns (config : XhrConfig) (s : State) :
    (_clearResources config s).teardownRuns = s.teardownRuns := by
  unfold _clearResources
  cases h : (s.tasksCount == 0 && config.clearTimingResources) <;> simp [h]

open XMLHttpRequestInstrumentation in
theorem clearResourcesC_xhrMem_none (config : XhrConfig) (s : State)
    (h : s.xhrMem = none) : (_clearResources config s).xhrMem = none := by
  unfold _clearResources
  cases hc : (s.tasksCount == 0 && config.clearTimingResources) <;> simp [hc, h]

open XMLHttpRequestInstrumentation in
theorem runCb_spans (mem : XhrMem) (s : State) :
    (runCallbackToRemoveEvents mem s).spans = s.spans := by
  unfold runCallbackToRemoveEvents
  cases h : mem.createdResources <;> simp [h]

open XMLHttpRequestInstrumentation in
theorem runCb_pending (mem : XhrMem) (s : State) :
    (runCallbackToRemoveEvents mem s).pending = s.pending := by
  unfold runCallbackToRemoveEvents
  cases h : mem.createdResources <;> simp [h]

open XMLHttpRequestInstrumentation in
theorem runCb_tasksCount (mem : XhrMem) (s : State) :
    (runCallbackToRemoveEvents mem s).tasksCount = s.tasksCount := by
  unfold runCallbackToRemoveEvents
  cases h : mem.createdResources <;> simp [h]

open XMLHttpRequestInstrumentation in
theorem runCb_usedResources (mem : XhrMem) (s : State) :
    (runCallbackToRemoveEvents mem s).usedResources = s.usedResources := by
  unfold runCallbackToRemoveEvents
  cases h : mem.createdResources <;> simp [h]

open XMLHttpRequestInstrumentation in
theorem runCb_buffer (mem : XhrMem) (s : State) :
    (runCallbackToRemoveEvents mem s).performanceResourceBuffer
      = s.performanceResourceBuffer := by
  unfold runCallbackToRemoveEvents
  cases h : mem.createdResources <;> simp [h]

open XMLHttpRequestInstrumentation in
theorem runCb_teardownRuns (mem : XhrMem) (s : State) :
    (runCallbackToRemoveEvents mem s).teardownRuns = s.teardownRuns + 1 := by
  unfold runCallbackToRemoveEvents
  cases h : mem.createdResources <;> simp [h]

open XMLHttpRequestInstrumentation in
theorem runCb_listeners (mem : XhrMem) (s : State) :
    (runCallbackToRemoveEvents mem s).listenersRegistered = false := by
  unfold runCallbackToRemoveEvents
  cases h : mem.createdResources <;> simp [h]

open XMLHttpRequestInstrumentation in
theorem runCb_xhrMem_none (mem : XhrMem) (s : State) (h : s.xhrMem = none) :
    (runCallbackToRemoveEvents mem s).xhrMem = none := by
  unfold runCallbackToRemoveEvents
  cases hc : mem.createdResources <;> simp [hc, h]

open XMLHttpRequestInstrumentation in
theorem addFinalC_xhrMem (mem : XhrMem) (s : State) :
    (_addFinalSpanAttributes mem s).xhrMem = s.xhrMem := by
  unfold _addFinalSpanAttributes
  cases hst : mem.status <;> cases hstx : mem.statusText <;> simp [hst, hstx]

open XMLHttpRequestInstrumentation in
theorem addFinalC_pending (mem : XhrMem) (s : State) :
    (_addFinalSpanAttributes mem s).pending = s.pending := by
  unfold _addFinalSpanAttributes
  cases hst : mem.status <;> cases hstx : mem.statusText <;> simp [hst, hstx]

open XMLHttpRequestInstrumentation in
theorem addFinalC_tasksCount (mem : XhrMem) (s : State) :
    (_addFinalSpanAttributes mem s).tasksCount = s.tasksCount := by
  unfold _addFinalSpanAttributes
  cases hst : mem.status <;> cases hstx : mem.statusText <;> simp [hst, hstx]

open XMLHttpRequestInstrumentation in
theorem addFinalC_listeners (mem : XhrMem) (s : State) :
    (_addFinalSpanAttributes mem s).listenersRegistered = s.listenersRegistered := by
  unfold _addFinalSpanAttributes
  cases hst : mem.status <;> cases hstx : mem.statusText <;> simp [hst, hstx]

open XMLHttpRequestInstrumentation in
theorem addFinalC_teardownRuns (mem : XhrMem) (s : State) :
    (_addFinalSpanAttributes mem s).teardownRuns = s.teardownRuns := by
  unfold _addFinalSpanAttributes
  cases hst : mem.status <;> cases hstx : mem.statusText <;> simp [hst, hstx]

open XMLHttpRequestInstrumentation in
theorem addFinalC_length (mem : XhrMem) (s : State) :
    (_addFinalSpanAttributes mem s).spans.length = s.spans.length := by
  unfold _addFinalSpanAttributes
  cases hst : mem.status <;> cases hstx : mem.statusText <;>
    simp [hst, hstx, length_setAttrAt]

open XMLHttpRequestInstrumentation in
theorem addFinalC_endCountAt (mem : XhrMem) (s : State) (j : Nat) :
    endCountAt (_addFinalSpanAttributes mem s).spans j = endCountAt s.spans j := by
  unfold _addFinalSpanAttributes
  cases hst : mem.status <;> cases hstx : mem.statusText <;>
    simp [hst, hstx, endCountAt_setAttrAt]

open XMLHttpRequestInstrumentation in
theorem addFinalC_eventsAt (mem : XhrMem) (s : State) (j : Nat) :
    eventsAt (_addFinalSpanAttributes mem s).spans j = eventsAt s.spans j := by
  unfold _addFinalSpanAttributes
  cases hst : mem.status <;> cases hstx : mem.statusText <;>
    simp [hst, hstx, eventsAt_setAttrAt]

open XMLHttpRequestInstrumentation in
theorem endSpanC_none (e : String) (st : Nat) (stx : String) (hrNow now : Nat)
    (s : State) (h : s.xhrMem = none) : endSpan e st stx hrNow now s = s := by
  simp [endSpan, h]

open XMLHttpRequestInstrumentation in
theorem endSpanC_some (e : String) (st : Nat) (stx : String) (hrNow now : Nat)
    (s : State) (mem : XhrMem) (hmem : s.xhrMem = some mem) :
    endSpan e st stx hrNow now s =
      { s with xhrMem := none,
               pending := s.pending ++
                 [{ eventName := e,
                    mem := { mem with status := some st, statusText := some stx },
                    performanceEndTime := hrNow, endTime := now,
                    delayMs := OBSERVER_WAIT_TIME_MS }] } := by
  simp [endSpan, hmem]

/-! ## getResource lemmas -/

theorem foldl_pick_mem {α : Type} (f : α → α → α)
    (hf : ∀ a b, f a b = a ∨ f a b = b) :
    ∀ (l : List α) (a : α), l.foldl f a ∈ a :: l := by
  intro l
  induction l with
  | nil => intro a; simp
  | cons d ds ih =>
    intro a
    have h := ih (f a d)
    simp only [List.foldl_cons]
    rcases List.mem_cons.mp h with h1 | h1
    · rw [h1]
      rcases hf a d with h2 | h2 <;> rw [h2] <;> simp
    · simp [h1]

theorem pickMainRequest_mem (l : List PerfResourceTiming) (m : PerfResourceTiming)
    (h : pickMainRequest l = some m) : m ∈ l := by
  cases l with
  | nil => simp [pickMainRequest] at h
  | cons c cs =>
    simp only [pickMainRequest, Option.some.injEq] at h
    rw [← h]
    exact foldl_pick_mem _
      (fun a b => by by_cases hab : a.fetchStart ≤ b.fetchStart <;> simp [hab]) cs c

theorem mem_xhrResourceCandidates (url : String) (st et : Nat)
    (resources : List PerfResourceTiming) (used : List Nat) (r : PerfResourceTiming)
    (h : r ∈ xhrResourceCandidates url st et resources used) :
    r ∈ resources ∧ r.name = url ∧ r.id ∉ used ∧ st ≤ r.fetchStart ∧ r.responseEnd ≤ et := by
  unfold xhrResourceCandidates at h
  have hm := List.mem_filter.mp h
  refine ⟨hm.1, ?_, ?_, ?_, ?_⟩ <;>
    · have := hm.2
      simp only [Bool.and_eq_true, beq_iff_eq, Bool.not_eq_true', decide_eq_false_iff_not,
        decide_eq_true_eq] at this
      tauto

theorem getResource_main_spec (url : String) (st et : Nat)
    (resources : List PerfResourceTiming) (used : List Nat) (main : PerfResourceTiming)
    (h : (getResource url st et resources used).mainRequest = some main) :
    main ∈ xhrResourceCandidates url st et resources used := by
  unfold getResource at h
  rcases hp : pickMainRequest (xhrResourceCandidates url st et resources used) with _ | m
  · rw [hp] at h
    simp at h
  · rw [hp] at h
    simp only [Option.some.injEq] at h
    rw [← h]
    exact pickMainRequest_mem _ _ hp

theorem getResource_cors_spec (url : String) (st et : Nat)
    (resources : List PerfResourceTiming) (used : List Nat) (cors : PerfResourceTiming)
    (h : (getResource url st et resources used).corsPreFlightRequest = some cors) :
    cors ∈ xhrResourceCandidates url st et resources used := by
  unfold getResource at h
  rcases hp : pickMainRequest (xhrResourceCandidates url st et resources used) with _ | m
  · rw [hp] at h
    simp at h
  · rw [hp] at h
    simp only [] at h
    exact List.mem_of_find?_eq_some h

open XMLHttpRequestInstrumentation in
/-- Normal form of one correlation step: the state is `s` with only the
span table and the used-resources set replaced; the span table only grows;
end counts of pre-existing spans are untouched; the used set only grows;
every entry identity the step attributed was not used before the step and
is marked used by the step itself. -/
theorem findRes_spec (mem : XhrMem) (spanId : Nat) (spanUrl : Option String)
    (startTime endTime : Option Nat) (s : State) :
    ∃ spansNew usedNew attr,
      _findResourceAndAddNetworkEvents mem spanId spanUrl startTime endTime s
        = ({ s with spans := spansNew, usedResources := usedNew }, attr) ∧
      s.spans.length ≤ spansNew.length ∧
      (∀ j, j < s.spans.length → endCountAt spansNew j = endCountAt s.spans j) ∧
      (∀ x, x ∈ s.usedResources → x ∈ usedNew) ∧
      (∀ x, x ∈ attr → x ∈ usedNew) ∧
      (∀ x, x ∈ attr → x ∉ s.usedResources) := by
  have triv : ∃ spansNew usedNew attr,
      ((s, []) : State × List Nat)
        = ({ s with spans := spansNew, usedResources := usedNew }, attr) ∧
      s.spans.length ≤ spansNew.length ∧
      (∀ j, j < s.spans.length → endCountAt spansNew j = endCountAt s.spans j) ∧
      (∀ x, x ∈ s.usedResources → x ∈ usedNew) ∧
      (∀ x, x ∈ attr → x ∈ usedNew) ∧
      (∀ x, x ∈ attr → x ∉ s.usedResources) :=
    ⟨s.spans, s.usedResources, [], rfl, le_refl _, fun _ _ => rfl, fun _ hx => hx,
      fun x hx => by simp at hx, fun x hx => by simp at hx⟩
  unfold _findResourceAndAddNetworkEvents
  cases spanUrl with
  | none => exact triv
  | some url =>
  cases startTime with
  | none => exact triv
  | some st =>
  cases endTime with
  | none => exact triv
  | some et =>
  rcases hcr : mem.createdResources with _ | created
  · exact triv
  · dsimp only
    rcases hm : (getResource (parseUrl url).href st et
        (if created.entries.length == 0 then s.performanceResourceBuffer
         else created.entries) s.usedResources).mainRequest with _ | main
    · exact triv
    · have hmainC := getResource_main_spec _ _ _ _ _ _ hm
      have hmainFresh := (mem_xhrResourceCandidates _ _ _ _ _ _ hmainC).2.2.1
      rcases hc : (getResource (parseUrl url).href st et
          (if created.entries.length == 0 then s.performanceResourceBuffer
           else created.entries) s.usedResources).corsPreFlightRequest with _ | cors
      · refine ⟨modifyAt s.spans spanId (addSpanNetworkEvents main),
          s.usedResources ++ [main.id], [main.id], rfl, ?_, ?_, ?_, ?_, ?_⟩
        · rw [length_modifyAt]
        · intro j _
          exact endCountAt_modifyAt s.spans spanId j (addSpanNetworkEvents main) (fun _ => rfl)
        · intro x hx
          exact List.mem_append.mpr (Or.inl hx)
        · intro x hx
          simp only [List.mem_singleton] at hx
          subst hx
          exact List.mem_append.mpr (Or.inr (by simp))
        · intro x hx
          simp only [List.mem_singleton] at hx
          subst hx
          exact hmainFresh
      · have hcorsC := getResource_cors_spec _ _ _ _ _ _ hc
        have hcorsFresh := (mem_xhrResourceCandidates _ _ _ _ _ _ hcorsC).2.2.1
        refine ⟨modifyAt (s.spans ++ [preflightChildSpan cors]) spanId
            (addSpanNetworkEvents main),
          (s.usedResources ++ [main.id]) ++ [cors.id], [main.id, cors.id], rfl, ?_, ?_, ?_, ?_, ?_⟩
        · rw [length_modifyAt, List.length_append]
          exact Nat.le_add_right _ _
        · intro j hj
          have h1 := endCountAt_modifyAt (s.spans ++ [preflightChildSpan cors]) spanId j
            (addSpanNetworkEvents main) (fun _ => rfl)
          rw [h1, endCountAt_append _ _ _ hj]
        · intro x hx
          exact List.mem_append.mpr (Or.inl (List.mem_append.mpr (Or.inl hx)))
        · intro x hx
          simp only [List.mem_cons, List.mem_singleton, List.not_mem_nil, or_false] at hx
          rcases hx with hx | hx
          · subst hx
            exact List.mem_append.mpr (Or.inl (List.mem_append.mpr (Or.inr (by simp))))
          · subst hx
            exact List.mem_append.mpr (Or.inr (by simp))
        · intro x hx
          simp only [List.mem_cons, List.mem_singleton, List.not_mem_nil, or_false] at hx
          rcases hx with hx | hx
          · subst hx
            exact hmainFresh
          · subst hx
            exact hcorsFresh

open XMLHttpRequestInstrumentation in
theorem endSpanFinalize_spec (config : XhrConfig) (pmem : XhrMem) (i : Nat) (t : Nat)
    (w : State) (h : i < w.spans.length) :
    (endSpanFinalize config pmem i t w).pending = w.pending ∧
    endCountAt (endSpanFinalize config pmem i t w).spans i = endCountAt w.spans i + 1 ∧
    endTimeAt (endSpanFinalize config pmem i t w).spans i = some t ∧
    (∀ j, eventsAt (endSpanFinalize config pmem i t w).spans j = eventsAt w.spans j) ∧
    (endSpanFinalize config pmem i t w).tasksCount = w.tasksCount - 1 ∧
    (endSpanFinalize config pmem i t w).teardownRuns = w.teardownRuns ∧
    (endSpanFinalize config pmem i t w).listenersRegistered = w.listenersRegistered ∧
    (w.xhrMem = none → (endSpanFinalize config pmem i t w).xhrMem = none) := by
  have hlen2 : i < (_addFinalSpanAttributes pmem w).spans.length := by
    rw [addFinalC_length]; exact h
  refine ⟨?_, ?_, ?_, ?_, ?_, ?_, ?_, ?_⟩
  · simp [endSpanFinalize, clearResourcesC_pending, addFinalC_pending]
  · simp only [endSpanFinalize]
    rw [clearResourcesC_spans]
    dsimp only
    rw [endCountAt_endSpanAt_self _ _ _ hlen2, addFinalC_endCountAt]
  · simp only [endSpanFinalize]
    rw [clearResourcesC_spans]
    dsimp only
    rw [endTimeAt_endSpanAt_self _ _ _ hlen2]
  · intro j
    simp only [endSpanFinalize]
    rw [clearResourcesC_spans]
    dsimp only
    rw [eventsAt_endSpanAt, addFinalC_eventsAt]
  · simp [endSpanFinalize, clearResourcesC_tasksCount, addFinalC_tasksCount]
  · simp [endSpanFinalize, clearResourcesC_teardownRuns, addFinalC_teardownRuns]
  · simp [endSpanFinalize, clearResourcesC_listeners, addFinalC_listeners]
  · intro h0
    simp only [endSpanFinalize]
    apply clearResourcesC_xhrMem_none
    simp [addFinalC_xhrMem, h0]

open XMLHttpRequestInstrumentation in
theorem endSpanTimeoutTail_spec (config : XhrConfig) (p : PendingFinalization) (s1 : State)
    (hlen : p.mem.span < s1.spans.length) :
    (endSpanTimeoutTail config p s1).pending = s1.pending ∧
    endCountAt (endSpanTimeoutTail config p s1).spans p.mem.span
      = endCountAt s1.spans p.mem.span + 1 ∧
    endTimeAt (endSpanTimeoutTail config p s1).spans p.mem.span = some p.endTime ∧
    (p.eventName, some p.endTime) ∈ eventsAt (endSpanTimeoutTail config p s1).spans p.mem.span ∧
    (endSpanTimeoutTail config p s1).tasksCount = s1.tasksCount - 1 ∧
    (endSpanTimeoutTail config p s1).teardownRuns = s1.teardownRuns ∧
    (endSpanTimeoutTail config p s1).listenersRegistered = s1.listenersRegistered ∧
    (s1.xhrMem = none → (endSpanTimeoutTail config p s1).xhrMem = none) := by
  obtain ⟨spansNew, usedNew, attr, heq, hle, hec, _, _, _⟩ :=
    findRes_spec p.mem p.mem.span (some p.mem.spanUrl) p.mem.sendStartTime
      (some p.performanceEndTime) s1
  have hlen2 : p.mem.span < spansNew.length := lt_of_lt_of_le hlen hle
  have hstep : endSpanTimeoutTail config p s1
      = endSpanFinalize config p.mem p.mem.span p.endTime
          { s1 with usedResources := usedNew,
                    spans := addEventAt spansNew p.mem.span p.eventName (some p.endTime) } := by
    unfold endSpanTimeoutTail
    rw [heq]
  have hW : p.mem.span < (addEventAt spansNew p.mem.span p.eventName (some p.endTime)).length := by
    rw [length_addEventAt]
    exact hlen2
  obtain ⟨f1, f2, f3, f4, f5, f6, f7, f8⟩ :=
    endSpanFinalize_spec config p.mem p.mem.span p.endTime
      { s1 with usedResources := usedNew,
                spans := addEventAt spansNew p.mem.span p.eventName (some p.endTime) } hW
  rw [hstep]
  refine ⟨f1, ?_, f3, ?_, f5, f6, f7, fun h0 => f8 h0⟩
  · rw [f2]
    show endCountAt (addEventAt spansNew p.mem.span p.eventName (some p.endTime)) p.mem.span + 1
      = endCountAt s1.spans p.mem.span + 1
    rw [endCountAt_addEventAt, hec _ hlen]
  · rw [f4 p.mem.span]
    show (p.eventName, some p.endTime) ∈
      eventsAt (addEventAt spansNew p.mem.span p.eventName (some p.endTime)) p.mem.span
    rw [eventsAt_addEventAt_self _ _ _ _ hlen2]
    simp

open XMLHttpRequestInstrumentation in
theorem endSpanFinalize_xhrMem_none (config : XhrConfig) (pmem : XhrMem) (i : Nat) (t : Nat)
    (w : State) (h0 : w.xhrMem = none) :
    (endSpanFinalize config pmem i t w).xhrMem = none := by
  simp only [endSpanFinalize]
  apply clearResourcesC_xhrMem_none
  simp [addFinalC_xhrMem, h0]

open XMLHttpRequestInstrumentation in
theorem endSpanFinalize_pending (config : XhrConfig) (pmem : XhrMem) (i : Nat) (t : Nat)
    (w : State) : (endSpanFinalize config pmem i t w).pending = w.pending := by
  simp [endSpanFinalize, clearResourcesC_pending, addFinalC_pending]

open XMLHttpRequestInstrumentation in
theorem endSpanFinalize_spansLen (config : XhrConfig) (pmem : XhrMem) (i : Nat) (t : Nat)
    (w : State) : (endSpanFinalize config pmem i t w).spans.length = w.spans.length := by
  simp only [endSpanFinalize]
  rw [clearResourcesC_spans]
  dsimp only
  rw [length_endSpanAt, addFinalC_length]

open XMLHttpRequestInstrumentation in
theorem endSpanTimeoutTail_xhrMem_none (config : XhrConfig) (p : PendingFinalization)
    (s1 : State) (h0 : s1.xhrMem = none) :
    (endSpanTimeoutTail config p s1).xhrMem = none := by
  obtain ⟨spansNew, usedNew, attr, heq, _, _, _, _, _⟩ :=
    findRes_spec p.mem p.mem.span (some p.mem.spanUrl) p.mem.sendStartTime
      (some p.performanceEndTime) s1
  have hstep : endSpanTimeoutTail config p s1
      = endSpanFinalize config p.mem p.mem.span p.endTime
          { s1 with usedResources := usedNew,
                    spans := addEventAt spansNew p.mem.span p.eventName (some p.endTime) } := by
    unfold endSpanTimeoutTail
    rw [heq]
  rw [hstep]
  exact endSpanFinalize_xhrMem_none _ _ _ _ _ h0

open XMLHttpRequestInstrumentation in
theorem endSpanTimeoutTail_pending (config : XhrConfig) (p : PendingFinalization)
    (s1 : State) : (endSpanTimeoutTail config p s1).pending = s1.pending := by
  obtain ⟨spansNew, usedNew, attr, heq, _, _, _, _, _⟩ :=
    findRes_spec p.mem p.mem.span (some p.mem.spanUrl) p.mem.sendStartTime
      (some p.performanceEndTime) s1
  have hstep : endSpanTimeoutTail config p s1
      = endSpanFinalize config p.mem p.mem.span p.endTime
          { s1 with usedResources := usedNew,
                    spans := addEventAt spansNew p.mem.span p.eventName (some p.endTime) } := by
    unfold endSpanTimeoutTail
    rw [heq]
  rw [hstep]
  exact endSpanFinalize_pending _ _ _ _ _

open XMLHttpRequestInstrumentation in
theorem endSpanTimeoutTail_spansLen (config : XhrConfig) (p : PendingFinalization)
    (s1 : State) : s1.spans.length ≤ (endSpanTimeoutTail config p s1).spans.length := by
  obtain ⟨spansNew, usedNew, attr, heq, hle, _, _, _, _⟩ :=
    findRes_spec p.mem p.mem.span (some p.mem.spanUrl) p.mem.sendStartTime
      (some p.performanceEndTime) s1
  have hstep : endSpanTimeoutTail config p s1
      = endSpanFinalize config p.mem p.mem.span p.endTime
          { s1 with usedResources := usedNew,
                    spans := addEventAt spansNew p.mem.span p.eventName (some p.endTime) } := by
    unfold endSpanTimeoutTail
    rw [heq]
  rw [hstep, endSpanFinalize_spansLen]
  show s1.spans.length ≤ (addEventAt spansNew p.mem.span p.eventName (some p.endTime)).length
  rw [length_addEventAt]
  exact hle

open XMLHttpRequestInstrumentation in
theorem endSpanTimeout_if_false (config : XhrConfig) (p : PendingFinalization) (s : State)
    (hcb : p.mem.callbackToRemoveEvents = false) :
    endSpanTimeout config p s = endSpanTimeoutTail config p s := by
  unfold endSpanTimeout
  rw [hcb]
  rfl

open XMLHttpRequestInstrumentation in
theorem endSpanTimeout_if_true (config : XhrConfig) (p : PendingFinalization) (s : State)
    (hcb : p.mem.callbackToRemoveEvents = true) :
    endSpanTimeout config p s
      = endSpanTimeoutTail config p (runCallbackToRemoveEvents p.mem s) := by
  unfold endSpanTimeout
  rw [hcb]
  rfl

open XMLHttpRequestInstrumentation in
theorem endSpanTimeout_xhrMem_none (config : XhrConfig) (p : PendingFinalization) (s : State)
    (h0 : s.xhrMem = none) : (endSpanTimeout config p s).xhrMem = none := by
  cases hcb : p.mem.callbackToRemoveEvents with
  | false =>
    rw [endSpanTimeout_if_false config p s hcb]
    exact endSpanTimeoutTail_xhrMem_none config p s h0
  | true =>
    rw [endSpanTimeout_if_true config p s hcb]
    exact endSpanTimeoutTail_xhrMem_none _ _ _ (runCb_xhrMem_none p.mem s h0)

open XMLHttpRequestInstrumentation in
theorem endSpanTimeout_pending (config : XhrConfig) (p : PendingFinalization) (s : State) :
    (endSpanTimeout config p s).pending = s.pending := by
  cases hcb : p.mem.callbackToRemoveEvents with
  | false =>
    rw [endSpanTimeout_if_false config p s hcb]
    exact endSpanTimeoutTail_pending config p s
  | true =>
    rw [endSpanTimeout_if_true config p s hcb]
    rw [endSpanTimeoutTail_pending, runCb_pending]

open XMLHttpRequestInstrumentation in
theorem endSpanTimeout_spansLen (config : XhrConfig) (p : PendingFinalization) (s : State) :
    s.spans.length ≤ (endSpanTimeout config p s).spans.length := by
  cases hcb : p.mem.callbackToRemoveEvents with
  | false =>
    rw [endSpanTimeout_if_false config p s hcb]
    exact endSpanTimeoutTail_spansLen config p s
  | true =>
    rw [endSpanTimeout_if_true config p s hcb]
    have := endSpanTimeoutTail_spansLen config p (runCallbackToRemoveEvents p.mem s)
    rw [runCb_spans] at this
    exact this

open XMLHttpRequestInstrumentation in
theorem endSpanTimeout_endCountAt (config : XhrConfig) (p : PendingFinalization) (s : State)
    (hlen : p.mem.span < s.spans.length) :
    endCountAt (endSpanTimeout config p s).spans p.mem.span
      = endCountAt s.spans p.mem.span + 1 := by
  cases hcb : p.mem.callbackToRemoveEvents with
  | false =>
    rw [endSpanTimeout_if_false config p s hcb]
    exact (endSpanTimeoutTail_spec config p s hlen).2.1
  | true =>
    rw [endSpanTimeout_if_true config p s hcb]
    have hlen1 : p.mem.span < (runCallbackToRemoveEvents p.mem s).spans.length := by
      rw [runCb_spans]; exact hlen
    have := (endSpanTimeoutTail_spec config p (runCallbackToRemoveEvents p.mem s) hlen1).2.1
    rw [this]
    have h2 : endCountAt (runCallbackToRemoveEvents p.mem s).spans p.mem.span
        = endCountAt s.spans p.mem.span := by rw [runCb_spans]
    rw [h2]

open XMLHttpRequestInstrumentation in
theorem endSpanTimeout_facts (config : XhrConfig) (p : PendingFinalization) (s : State)
    (hlen : p.mem.span < s.spans.length) :
    endTimeAt (endSpanTimeout config p s).spans p.mem.span = some p.endTime ∧
    (p.eventName, some p.endTime) ∈ eventsAt (endSpanTimeout config p s).spans p.mem.span ∧
    (endSpanTimeout config p s).tasksCount = s.tasksCount - 1 ∧
    (p.mem.callbackToRemoveEvents = true →
      (endSpanTimeout config p s).teardownRuns = s.teardownRuns + 1 ∧
      (endSpanTimeout config p s).listenersRegistered = false) := by
  cases hcb : p.mem.callbackToRemoveEvents with
  | false =>
    rw [endSpanTimeout_if_false config p s hcb]
    obtain ⟨_, _, t3, t4, t5, _, _, _⟩ := endSpanTimeoutTail_spec config p s hlen
    exact ⟨t3, t4, t5, fun hc => by simp at hc⟩
  | true =>
    rw [endSpanTimeout_if_true config p s hcb]
    have hlen1 : p.mem.span < (runCallbackToRemoveEvents p.mem s).spans.length := by
      rw [runCb_spans]; exact hlen
    obtain ⟨_, _, t3, t4, t5, t6, t7, _⟩ :=
      endSpanTimeoutTail_spec config p (runCallbackToRemoveEvents p.mem s) hlen1
    refine ⟨t3, t4, ?_, fun _ => ⟨?_, ?_⟩⟩
    · rw [t5, runCb_tasksCount]
    · rw [t6, runCb_teardownRuns]
    · rw [t7, runCb_listeners]

open XMLHttpRequestInstrumentation in
theorem endSpanC_xhrMem_none_after (e : String) (st : Nat) (stx : String) (hrNow now : Nat)
    (s : State) : (endSpan e st stx hrNow now s).xhrMem = none := by
  cases h : s.xhrMem with
  | none => rw [endSpanC_none _ _ _ _ _ _ h]; exact h
  | some mem => rw [endSpanC_some _ _ _ _ _ _ mem h]

open XMLHttpRequestInstrumentation in
theorem dispatch_none (ev : TerminalEvent) (st : Nat) (stx : String) (hrNow now : Nat)
    (s : State) (h : s.xhrMem = none) :
    dispatchTerminal ev st stx hrNow now s = s := by
  cases ev with
  | load =>
    by_cases hst : st < 299 <;>
      simp [dispatchTerminal, onLoad, hst, endSpanC_none, h]
  | error => simp [dispatchTerminal, onError, endSpanC_none, h]
  | abort => simp [dispatchTerminal, onAbort, endSpanC_none, h]
  | timeout => simp [dispatchTerminal, onTimeout, endSpanC_none, h]
  | readystatechange rs =>
    cases hrs : (rs == XHR_DONE) <;>
      simp [dispatchTerminal, onReadyStateChange, hrs, endSpanC_none, h]

open XMLHttpRequestInstrumentation in
theorem dispatch_ends_xhrMem (ev : TerminalEvent) (st : Nat) (stx : String) (hrNow now : Nat)
    (s : State) (hends : ev.ends = true) :
    (dispatchTerminal ev st stx hrNow now s).xhrMem = none := by
  cases ev with
  | load =>
    by_cases hst : st < 299 <;>
      simp [dispatchTerminal, onLoad, hst, endSpanC_xhrMem_none_after]
  | error => simp [dispatchTerminal, onError, endSpanC_xhrMem_none_after]
  | abort => simp [dispatchTerminal, onAbort, endSpanC_xhrMem_none_after]
  | timeout => simp [dispatchTerminal, onTimeout, endSpanC_xhrMem_none_after]
  | readystatechange rs =>
    have hrs : (rs == XHR_DONE) = true := hends
    simp [dispatchTerminal, onReadyStateChange, hrs, endSpanC_xhrMem_none_after]

open XMLHttpRequestInstrumentation in
theorem dispatch_armed (ev : TerminalEvent) (st : Nat) (stx : String) (hrNow now : Nat)
    (s : State) (mem : XhrMem) (hmem : s.xhrMem = some mem) :
    dispatchTerminal ev st stx hrNow now s = s ∨
    ∃ e, dispatchTerminal ev st stx hrNow now s =
      { s with xhrMem := none,
               pending := s.pending ++
                 [{ eventName := e,
                    mem := { mem with status := some st, statusText := some stx },
                    performanceEndTime := hrNow, endTime := now,
                    delayMs := OBSERVER_WAIT_TIME_MS }] } := by
  cases ev with
  | load =>
    by_cases hst : st < 299
    · refine Or.inr ⟨EventNames.EVENT_LOAD, ?_⟩
      simp only [dispatchTerminal, onLoad, if_pos hst]
      exact endSpanC_some _ _ _ _ _ _ mem hmem
    · refine Or.inr ⟨EventNames.EVENT_ERROR, ?_⟩
      simp only [dispatchTerminal, onLoad, if_neg hst]
      exact endSpanC_some _ _ _ _ _ _ mem hmem
  | error =>
    exact Or.inr ⟨EventNames.EVENT_ERROR, endSpanC_some _ _ _ _ _ _ mem hmem⟩
  | abort =>
    exact Or.inr ⟨EventNames.EVENT_ABORT, endSpanC_some _ _ _ _ _ _ mem hmem⟩
  | timeout =>
    exact Or.inr ⟨EventNames.EVENT_TIMEOUT, endSpanC_some _ _ _ _ _ _ mem hmem⟩
  | readystatechange rs =>
    cases hrs : (rs == XHR_DONE) with
    | false =>
      refine Or.inl ?_
      simp [dispatchTerminal, onReadyStateChange, hrs]
    | true =>
      refine Or.inr ⟨EventNames.EVENT_READY_STATE_CHANGE, ?_⟩
      simp only [dispatchTerminal, onReadyStateChange, hrs, if_pos]
      exact endSpanC_some _ _ _ _ _ _ mem hmem

open XMLHttpRequestInstrumentation in
theorem step_fireTimeout_nil (config : XhrConfig) (s : State) (hp : s.pending = []) :
    step config CStep.fireTimeout s = s := by
  simp [step, hp]

open XMLHttpRequestInstrumentation in
theorem step_fireTimeout_cons (config : XhrConfig) (s : State) (p : PendingFinalization)
    (rest : List PendingFinalization) (hp : s.pending = p :: rest) :
    step config CStep.fireTimeout s = endSpanTimeout config p { s with pending := rest } := by
  simp [step, hp]

open XMLHttpRequestInstrumentation in
theorem step_xhrMem_none (config : XhrConfig) (c : CStep) (s : State)
    (h : s.xhrMem = none) : (step config c s).xhrMem = none := by
  cases c with
  | terminal ev st stx hrNow now =>
    show (dispatchTerminal ev st stx hrNow now s).xhrMem = none
    rw [dispatch_none ev st stx hrNow now s h]
    exact h
  | fireTimeout =>
    cases hp : s.pending with
    | nil =>
      rw [step_fireTimeout_nil config s hp]
      exact h
    | cons p rest =>
      rw [step_fireTimeout_cons config s p rest hp]
      exact endSpanTimeout_xhrMem_none config p _ h

open XMLHttpRequestInstrumentation in
theorem run_xhrMem_none (config : XhrConfig) (steps : List CStep) :
    ∀ s : State, s.xhrMem = none → (run config steps s).xhrMem = none := by
  induction steps with
  | nil => intro s h; exact h
  | cons c cs ih =>
    intro s h
    exact ih _ (step_xhrMem_none config c s h)

open XMLHttpRequestInstrumentation in
theorem run_ending_terminal_xhrMem (config : XhrConfig) (steps : List CStep) :
    ∀ s : State, hasEndingTerminal steps = true → (run config steps s).xhrMem = none := by
  induction steps with
  | nil =>
    intro s h
    simp [hasEndingTerminal] at h
  | cons c cs ih =>
    intro s h
    cases c with
    | terminal ev st stx hrNow now =>
      by_cases hev : ev.ends = true
      · exact run_xhrMem_none config cs _ (dispatch_ends_xhrMem ev st stx hrNow now s hev)
      · have hcs : hasEndingTerminal cs = true := by
          simp only [hasEndingTerminal, List.any_cons, Bool.or_eq_true] at h
          rcases h with h | h
          · exact absurd h hev
          · simpa [hasEndingTerminal] using h
        exact ih _ hcs
    | fireTimeout =>
      have hcs : hasEndingTerminal cs = true := by
        simp only [hasEndingTerminal, List.any_cons, Bool.or_eq_true] at h
        rcases h with h | h
        · simp at h
        · simpa [hasEndingTerminal] using h
      exact ih _ hcs

open XMLHttpRequestInstrumentation in
theorem C1Inv_step (config : XhrConfig) (mem0 : XhrMem) (c : CStep) (s : State)
    (h : C1Inv mem0 s) : C1Inv mem0 (step config c s) := by
  obtain ⟨hlen, hphase⟩ := h
  cases c with
  | terminal ev st stx hrNow now =>
    show C1Inv mem0 (dispatchTerminal ev st stx hrNow now s)
    rcases hphase with ⟨hmem, hpend, hec⟩ | ⟨hmem, hpend, hec⟩ | ⟨hmem, hpend, hec⟩
    · rcases dispatch_armed ev st stx hrNow now s mem0 hmem with hid | ⟨e, heq⟩
      · rw [hid]
        exact ⟨hlen, Or.inl ⟨hmem, hpend, hec⟩⟩
      · rw [heq]
        refine ⟨hlen, Or.inr (Or.inl ⟨rfl,
          ⟨{ eventName := e,
             mem := { mem0 with status := some st, statusText := some stx },
             performanceEndTime := hrNow, endTime := now,
             delayMs := OBSERVER_WAIT_TIME_MS }, ?_, rfl⟩, hec⟩)⟩
        rw [hpend]
        rfl
    · rw [dispatch_none ev st stx hrNow now s hmem]
      exact ⟨hlen, Or.inr (Or.inl ⟨hmem, hpend, hec⟩)⟩
    · rw [dispatch_none ev st stx hrNow now s hmem]
      exact ⟨hlen, Or.inr (Or.inr ⟨hmem, hpend, hec⟩)⟩
  | fireTimeout =>
    rcases hphase with ⟨hmem, hpend, hec⟩ | ⟨hmem, hpendEx, hec⟩ | ⟨hmem, hpend, hec⟩
    · rw [step_fireTimeout_nil config s hpend]
      exact ⟨hlen, Or.inl ⟨hmem, hpend, hec⟩⟩
    · obtain ⟨p, hpend, hspan⟩ := hpendEx
      rw [step_fireTimeout_cons config s p [] hpend]
      have hlen0 : p.mem.span < s.spans.length := by
        rw [hspan]
        exact hlen
      have hlen1 : p.mem.span
          < ({ s with pending := ([] : List PendingFinalization) } : State).spans.length :=
        hlen0
      refine ⟨?_, Or.inr (Or.inr ⟨?_, ?_, ?_⟩)⟩
      · calc mem0.span < s.spans.length := hlen
          _ ≤ _ := endSpanTimeout_spansLen config p { s with pending := [] }
      · exact endSpanTimeout_xhrMem_none config p _ hmem
      · rw [endSpanTimeout_pending]
      · have h1 := endSpanTimeout_endCountAt config p { s with pending := [] } hlen1
        rw [← hspan]
        rw [h1]
        have h2 : endCountAt s.spans p.mem.span = 0 := by
          rw [hspan]
          exact hec
        rw [show endCountAt ({ s with pending := ([] : List PendingFinalization) } : State).spans p.mem.span
              = endCountAt s.spans p.mem.span from rfl, h2]
    · rw [step_fireTimeout_nil config s hpend]
      exact ⟨hlen, Or.inr (Or.inr ⟨hmem, hpend, hec⟩)⟩

open XMLHttpRequestInstrumentation in
theorem C1Inv_run (config : XhrConfig) (mem0 : XhrMem) (steps : List CStep) :
    ∀ s : State, C1Inv mem0 s → C1Inv mem0 (run config steps s) := by
  induction steps with
  | nil => intro s h; exact h
  | cons c cs ih =>
    intro s h
    exact ih _ (C1Inv_step config mem0 c s h)

/-! ## C1 -/

/-- C1 counterexample: after `send` armed the five completion listeners
(`c1s0.listenersRegistered = true`), the first terminal event removes the
RequestState synchronously but does NOT unregister the completion
listeners — they are still registered when a second terminal event is
delivered for the same handle, and that second event is a no-op because
the registry lookup fails, not because the listeners were unregistered
before the terminal path ran. (In the closure based implementation that
`init` installs, the listeners are never unregistered at all.) -/
theorem c1_listener_unregistration_counterexample :
    (XMLHttpRequestInstrumentation.endSpan EventNames.EVENT_LOAD 200 "OK" 30 40
        c1s0).listenersRegistered = true ∧
    (XMLHttpRequestInstrumentation.endSpan EventNames.EVENT_LOAD 200 "OK" 30 40
        c1s0).xhrMem = none ∧
    XMLHttpRequestInstrumentation.endSpan EventNames.EVENT_READY_STATE_CHANGE 200 "OK" 31 41
        (XMLHttpRequestInstrumentation.endSpan EventNames.EVENT_LOAD 200 "OK" 30 40 c1s0)
      = XMLHttpRequestInstrumentation.endSpan EventNames.EVENT_LOAD 200 "OK" 30 40 c1s0 := by
  decide

/-- C1 (amended): for a request handle with a registered RequestState (a
state armed by send), across any interleaving of terminal events (load,
error, abort, timeout, ready-state changes) and finalization-timer
firings, span.end is called on the RequestState span at most once, and
exactly once as soon as at least one terminal-path event was delivered and
every scheduled finalization has fired. The at-most-once is enforced by
the synchronous registry removal: the first terminal event deletes the
RequestState, so every later terminal event for the handle finds no
RequestState and is a no-op, while the completion listeners remain
registered at the moment the terminal handler returns. -/
theorem c1_span_ended_exactly_once (config : XhrConfig) (mem0 : XhrMem)
    (s0 : XMLHttpRequestInstrumentation.State)
    (harmed : XMLHttpRequestInstrumentation.RegArmed mem0 s0)
    (hlen : mem0.span < s0.spans.length) :
    (∀ steps,
      endCountAt (XMLHttpRequestInstrumentation.run config steps s0).spans mem0.span ≤ 1) ∧
    (∀ steps, XMLHttpRequestInstrumentation.hasEndingTerminal steps = true →
      (XMLHttpRequestInstrumentation.run config steps s0).pending = [] →
      endCountAt (XMLHttpRequestInstrumentation.run config steps s0).spans mem0.span = 1) ∧
    (∀ e st stx hrNow now s1, s1.xhrMem = none →
      XMLHttpRequestInstrumentation.endSpan e st stx hrNow now s1 = s1) ∧
    (∀ e st stx hrNow now,
      (XMLHttpRequestInstrumentation.endSpan e st stx hrNow now s0).xhrMem = none ∧
      (XMLHttpRequestInstrumentation.endSpan e st stx hrNow now s0).listenersRegistered
        = s0.listenersRegistered) := by
  have hinv0 : XMLHttpRequestInstrumentation.C1Inv mem0 s0 := ⟨hlen, Or.inl harmed⟩
  refine ⟨?_, ?_, ?_, ?_⟩
  · intro steps
    obtain ⟨_, hph⟩ := C1Inv_run config mem0 steps s0 hinv0
    rcases hph with ⟨_, _, hec⟩ | ⟨_, _, hec⟩ | ⟨_, _, hec⟩ <;> rw [hec] <;> omega
  · intro steps hterm hdrain
    obtain ⟨_, hph⟩ := C1Inv_run config mem0 steps s0 hinv0
    have hnone := run_ending_terminal_xhrMem config steps s0 hterm
    rcases hph with ⟨hmem, _, _⟩ | ⟨_, hpendEx, _⟩ | ⟨_, _, hec⟩
    · rw [hnone] at hmem
      simp at hmem
    · obtain ⟨p, hpend, _⟩ := hpendEx
      rw [hdrain] at hpend
      simp at hpend
    · exact hec
  · intro e st stx hrNow now s1 h
    exact endSpanC_none e st stx hrNow now s1 h
  · intro e st stx hrNow now
    obtain ⟨hmem, _, _⟩ := harmed
    rw [endSpanC_some e st stx hrNow now s0 mem0 hmem]
    exact ⟨rfl, rfl⟩

theorem c1_span_ended_exactly_once_witness :
    XMLHttpRequestInstrumentation.RegArmed c1mem c1s0 ∧
    c1mem.span < c1s0.spans.length ∧
    XMLHttpRequestInstrumentation.hasEndingTerminal c1steps = true ∧
    (XMLHttpRequestInstrumentation.run c1cfg c1steps c1s0).pending = [] ∧
    endCountAt (XMLHttpRequestInstrumentation.run c1cfg c1steps c1s0).spans c1mem.span = 1 := by
  refine ⟨⟨rfl, rfl, rfl⟩, by decide, by decide, by decide, ?_⟩
  exact (c1_span_ended_exactly_once c1cfg c1mem c1s0 ⟨rfl, rfl, rfl⟩ (by decide)).2.1 c1steps
    (by decide) (by decide)

/-! ## C3 -/

/-- C3 (amended): in the class based `XMLHttpRequestInstrumentation`, a
terminal event on an instrumented request captures status and statusText
into the RequestState and removes it from the registry synchronously, and
schedules finalization after the fixed `OBSERVER_WAIT_TIME_MS` (300 ms)
settle delay over the captured, now-detached snapshot: when `endSpan`
returns, the span table and the task counter are untouched; when the
scheduled timer fires, the completionTeardown capability is invoked
(listeners unregistered), the terminal event is recorded and the span is
ended at the terminal event timestamp, and the task counter is
decremented. The closure based `instrumentXHR` installed by `init` instead
finalizes synchronously inside the terminal handler, with no settle delay,
no teardown and no resource correlation (see the counterexample). -/
theorem c3_deferred_finalization_after_settle_delay (config : XhrConfig)
    (s : XMLHttpRequestInstrumentation.State) (mem : XhrMem) (e : String) (st : Nat)
    (stx : String) (hrNow now : Nat)
    (hmem : s.xhrMem = some mem) (hpend : s.pending = [])
    (hlen : mem.span < s.spans.length) (hcb : mem.callbackToRemoveEvents = true) :
    XMLHttpRequestInstrumentation.endSpan e st stx hrNow now s
      = { s with xhrMem := none,
                 pending := [{ eventName := e,
                               mem := { mem with status := some st, statusText := some stx },
                               performanceEndTime := hrNow, endTime := now,
                               delayMs := OBSERVER_WAIT_TIME_MS }] } ∧
    OBSERVER_WAIT_TIME_MS = 300 ∧
    (XMLHttpRequestInstrumentation.endSpan e st stx hrNow now s).spans = s.spans ∧
    (XMLHttpRequestInstrumentation.endSpan e st stx hrNow now s).tasksCount = s.tasksCount ∧
    ((XMLHttpRequestInstrumentation.step config XMLHttpRequestInstrumentation.CStep.fireTimeout
        (XMLHttpRequestInstrumentation.endSpan e st stx hrNow now s)).teardownRuns
      = s.teardownRuns + 1 ∧
     (XMLHttpRequestInstrumentation.step config XMLHttpRequestInstrumentation.CStep.fireTimeout
        (XMLHttpRequestInstrumentation.endSpan e st stx hrNow now s)).listenersRegistered
      = false ∧
     endCountAt (XMLHttpRequestInstrumentation.step config
        XMLHttpRequestInstrumentation.CStep.fireTimeout
        (XMLHttpRequestInstrumentation.endSpan e st stx hrNow now s)).spans mem.span
      = endCountAt s.spans mem.span + 1 ∧
     endTimeAt (XMLHttpRequestInstrumentation.step config
        XMLHttpRequestInstrumentation.CStep.fireTimeout
        (XMLHttpRequestInstrumentation.endSpan e st stx hrNow now s)).spans mem.span
      = some now ∧
     (e, some now) ∈ eventsAt (XMLHttpRequestInstrumentation.step config
        XMLHttpRequestInstrumentation.CStep.fireTimeout
        (XMLHttpRequestInstrumentation.endSpan e st stx hrNow now s)).spans mem.span ∧
     (XMLHttpRequestInstrumentation.step config XMLHttpRequestInstrumentation.CStep.fireTimeout
        (XMLHttpRequestInstrumentation.endSpan e st stx hrNow now s)).tasksCount
      = s.tasksCount - 1) := by
  have hs1 : XMLHttpRequestInstrumentation.endSpan e st stx hrNow now s
      = { s with xhrMem := none,
                 pending := [{ eventName := e,
                               mem := { mem with status := some st, statusText := some stx },
                               performanceEndTime := hrNow, endTime := now,
                               delayMs := OBSERVER_WAIT_TIME_MS }] } := by
    rw [endSpanC_some e st stx hrNow now s mem hmem]
    simp [hpend]
  have hs2 : XMLHttpRequestInstrumentation.step config
      XMLHttpRequestInstrumentation.CStep.fireTimeout
      (XMLHttpRequestInstrumentation.endSpan e st stx hrNow now s)
      = XMLHttpRequestInstrumentation.endSpanTimeout config
          { eventName := e, mem := { mem with status := some st, statusText := some stx },
            performanceEndTime := hrNow, endTime := now, delayMs := OBSERVER_WAIT_TIME_MS }
          { s with xhrMem := none, pending := [] } := by
    rw [hs1]
    exact step_fireTimeout_cons config _ _ [] rfl
  have hcount := endSpanTimeout_endCountAt config
    { eventName := e, mem := { mem with status := some st, statusText := some stx },
      performanceEndTime := hrNow, endTime := now, delayMs := OBSERVER_WAIT_TIME_MS }
    { s with xhrMem := none, pending := [] } hlen
  obtain ⟨f3, f4, f5, f6⟩ := endSpanTimeout_facts config
    { eventName := e, mem := { mem with status := some st, statusText := some stx },
      performanceEndTime := hrNow, endTime := now, delayMs := OBSERVER_WAIT_TIME_MS }
    { s with xhrMem := none, pending := [] } hlen
  refine ⟨hs1, rfl, by rw [hs1], by rw [hs1], ?_, ?_, ?_, ?_, ?_, ?_⟩
  · rw [hs2]
    exact (f6 hcb).1
  · rw [hs2]
    exact (f6 hcb).2
  · rw [hs2]
    exact hcount
  · rw [hs2]
    exact f3
  · rw [hs2]
    exact f4
  · rw [hs2]
    exact f5

theorem c3_deferred_finalization_after_settle_delay_witness :
    c3s0.xhrMem = some c3mem ∧ c3s0.pending = [] ∧ c3mem.callbackToRemoveEvents = true ∧
    XMLHttpRequestInstrumentation.endSpan "loaded" 200 "OK" 40 50 c3s0
      = { c3s0 with xhrMem := none,
                    pending := [{ eventName := "loaded",
                                  mem := { c3mem with status := some 200, statusText := some "OK" },
                                  performanceEndTime := 40, endTime := 50,
                                  delayMs := OBSERVER_WAIT_TIME_MS }] } ∧
    endCountAt (XMLHttpRequestInstrumentation.step c3cfg
        XMLHttpRequestInstrumentation.CStep.fireTimeout
        (XMLHttpRequestInstrumentation.endSpan "loaded" 200 "OK" 40 50 c3s0)).spans c3mem.span
      = endCountAt c3s0.spans c3mem.span + 1 := by
  have h := c3_deferred_finalization_after_settle_delay c3cfg c3s0 c3mem "loaded" 200 "OK" 40 50
    rfl rfl (by decide) rfl
  exact ⟨rfl, rfl, rfl, h.1, h.2.2.2.2.2.2.1⟩

/-! ## C4 -/

open XMLHttpRequestInstrumentation in
theorem runCb_observerDisconnects_some (mem : XhrMem) (s : State)
    (h : mem.createdResources.isSome = true) :
    (runCallbackToRemoveEvents mem s).observerDisconnects = s.observerDisconnects + 1 := by
  unfold runCallbackToRemoveEvents
  cases hc : mem.createdResources with
  | none => rw [hc] at h; simp at h
  | some cr => simp [hc]

open XMLHttpRequestInstrumentation in
theorem cleanPrev_teardownRuns_some (s : State) (old : XhrMem)
    (hold : s.xhrMem = some old) (hcb : old.callbackToRemoveEvents = true) :
    (_cleanPreviousSpanInformation s).teardownRuns = s.teardownRuns + 1 := by
  unfold _cleanPreviousSpanInformation
  simp only [hold, hcb, if_true]
  exact runCb_teardownRuns old s

open XMLHttpRequestInstrumentation in
theorem cleanPrev_listeners_some (s : State) (old : XhrMem)
    (hold : s.xhrMem = some old) (hcb : old.callbackToRemoveEvents = true) :
    (_cleanPreviousSpanInformation s).listenersRegistered = false := by
  unfold _cleanPreviousSpanInformation
  simp only [hold, hcb, if_true]
  exact runCb_listeners old s

open XMLHttpRequestInstrumentation in
theorem cleanPrev_observerDisconnects_some (s : State) (old : XhrMem)
    (hold : s.xhrMem = some old) (hcb : old.callbackToRemoveEvents = true)
    (hcr : old.createdResources.isSome = true) :
    (_cleanPreviousSpanInformation s).observerDisconnects = s.observerDisconnects + 1 := by
  unfold _cleanPreviousSpanInformation
  simp only [hold, hcb, if_true]
  exact runCb_observerDisconnects_some old s hcr

/-- C4 (amended): opening a new, non-ignored request on a handle that
already holds a RequestState evicts the prior entry before the new
RequestState is stored, so at most one RequestState is associated with the
handle at any time (afterwards the registry holds exactly the fresh
state). In the class based `XMLHttpRequestInstrumentation` the prior state
completionTeardown capability is additionally invoked — completion
listeners unregistered and the resource observer disconnected; in the
closure based `instrumentXHR` installed by `init`, open deletes the prior
entry without tearing anything down, and the prior send completion
listener stays attached (see the counterexample). -/
theorem c4_open_evicts_prior_state (config : XhrConfig) (url method : String)
    (s : XMLHttpRequestInstrumentation.State) (old : XhrMem)
    (hold : s.xhrMem = some old) (hcb : old.callbackToRemoveEvents = true)
    (hcr : old.createdResources.isSome = true)
    (hph : isUrlIgnored url config.ignoreUrls = false) :
    (XMLHttpRequestInstrumentation._createSpan config url method s).1 = some s.spans.length ∧
    (XMLHttpRequestInstrumentation._createSpan config url method s).2.xhrMem
      = some { span := s.spans.length, spanUrl := url } ∧
    (XMLHttpRequestInstrumentation._createSpan config url method s).2.teardownRuns
      = s.teardownRuns + 1 ∧
    (XMLHttpRequestInstrumentation._createSpan config url method s).2.listenersRegistered
      = false ∧
    (XMLHttpRequestInstrumentation._createSpan config url method s).2.observerDisconnects
      = s.observerDisconnects + 1 := by
  unfold XMLHttpRequestInstrumentation._createSpan
  simp only [hph, Bool.false_eq_true, if_false]
  refine ⟨trivial, trivial, ?_, ?_, ?_⟩
  · exact cleanPrev_teardownRuns_some _ old hold hcb
  · exact cleanPrev_listeners_some _ old hold hcb
  · exact cleanPrev_observerDisconnects_some _ old hold hcb hcr

theorem c4_open_evicts_prior_state_witness :
    c4s0.xhrMem = some c4mem ∧ c4mem.callbackToRemoveEvents = true ∧
    isUrlIgnored "https://b/2" c4cfg.ignoreUrls = false ∧
    (XMLHttpRequestInstrumentation._createSpan c4cfg "https://b/2" "GET" c4s0).2.xhrMem
      = some { span := c4s0.spans.length, spanUrl := "https://b/2" } ∧
    (XMLHttpRequestInstrumentation._createSpan c4cfg "https://b/2" "GET" c4s0).2.teardownRuns
      = c4s0.teardownRuns + 1 ∧
    (XMLHttpRequestInstrumentation._createSpan c4cfg "https://b/2" "GET" c4s0).2.observerDisconnects
      = c4s0.observerDisconnects + 1 := by
  have h := c4_open_evicts_prior_state c4cfg "https://b/2" "GET" c4s0 c4mem rfl rfl
    (by decide) (by decide)
  exact ⟨rfl, rfl, by decide, h.2.1, h.2.2.1, h.2.2.2.2⟩

/-! ## C8 -/

/-- C8: for a load event delivered to an instrumented request, a response
status of 299 or more makes the terminal path record the error event name
instead of the load event name — through the same `endSpan` path, on the
same span, producing the same single scheduled finalization — and a status
below 299 records the load event name. -/
theorem c8_load_status_error_event (st : Nat) (stx : String) (hrNow now : Nat)
    (s : XMLHttpRequestInstrumentation.State) (mem : XhrMem)
    (hmem : s.xhrMem = some mem) :
    XMLHttpRequestInstrumentation.onLoad st stx hrNow now s
      = XMLHttpRequestInstrumentation.endSpan
          (if 299 ≤ st then EventNames.EVENT_ERROR else EventNames.EVENT_LOAD)
          st stx hrNow now s ∧
    (XMLHttpRequestInstrumentation.onLoad st stx hrNow now s).pending
      = s.pending ++
        [{ eventName := if 299 ≤ st then EventNames.EVENT_ERROR else EventNames.EVENT_LOAD,
           mem := { mem with status := some st, statusText := some stx },
           performanceEndTime := hrNow, endTime := now,
           delayMs := OBSERVER_WAIT_TIME_MS }] := by
  have hsel : XMLHttpRequestInstrumentation.onLoad st stx hrNow now s
      = XMLHttpRequestInstrumentation.endSpan
          (if 299 ≤ st then EventNames.EVENT_ERROR else EventNames.EVENT_LOAD)
          st stx hrNow now s := by
    unfold XMLHttpRequestInstrumentation.onLoad
    by_cases hst : st < 299
    · rw [if_pos hst, if_neg (by omega)]
    · rw [if_neg hst, if_pos (by omega)]
  refine ⟨hsel, ?_⟩
  rw [hsel, endSpanC_some _ _ _ _ _ _ mem hmem]

theorem c8_load_status_error_event_witness :
    c8s0.xhrMem = some c8mem ∧
    XMLHttpRequestInstrumentation.onLoad 404 "Not Found" 10 20 c8s0
      = XMLHttpRequestInstrumentation.endSpan EventNames.EVENT_ERROR 404 "Not Found" 10 20
          c8s0 ∧
    (XMLHttpRequestInstrumentation.onLoad 404 "Not Found" 10 20 c8s0).pending
      = [{ eventName := EventNames.EVENT_ERROR,
           mem := { c8mem with status := some 404, statusText := some "Not Found" },
           performanceEndTime := 10, endTime := 20, delayMs := OBSERVER_WAIT_TIME_MS }] := by
  have h := c8_load_status_error_event 404 "Not Found" 10 20 c8s0 c8mem rfl
  have h1 := h.1
  have h2 := h.2
  rw [if_pos (show (299 : Nat) ≤ 404 by omega)] at h1 h2
  refine ⟨rfl, h1, ?_⟩
  rw [h2]
  rfl

/-! ## C2 -/

/-- C2: across two sequential correlation steps sharing the used-resources
set (any two requests, in particular two overlapping requests for the
identical URL), every resource-timing entry identity the first step
attributed to its span — the main-request entry and any CORS-preflight
entry alike — is marked used synchronously within that first step, and is
excluded from consideration by the second step: no identity attributed by
the first step is ever attributed by the second. -/
theorem c2_resource_attributed_at_most_once (m1 m2 : XhrMem) (i1 i2 : Nat)
    (u1 u2 : Option String) (t1 e1 t2 e2 : Option Nat)
    (s : XMLHttpRequestInstrumentation.State) :
    ∀ rid, rid ∈ (XMLHttpRequestInstrumentation._findResourceAndAddNetworkEvents
        m1 i1 u1 t1 e1 s).2 →
      rid ∈ (XMLHttpRequestInstrumentation._findResourceAndAddNetworkEvents
        m1 i1 u1 t1 e1 s).1.usedResources ∧
      rid ∉ (XMLHttpRequestInstrumentation._findResourceAndAddNetworkEvents m2 i2 u2 t2 e2
        (XMLHttpRequestInstrumentation._findResourceAndAddNetworkEvents
          m1 i1 u1 t1 e1 s).1).2 := by
  intro rid hrid
  obtain ⟨sp1, us1, at1, heq1, _, _, _, hmark1, _⟩ := findRes_spec m1 i1 u1 t1 e1 s
  obtain ⟨sp2, us2, at2, heq2, _, _, _, _, hfresh2⟩ :=
    findRes_spec m2 i2 u2 t2 e2 { s with spans := sp1, usedResources := us1 }
  rw [heq1] at hrid
  constructor
  · rw [heq1]
    exact hmark1 rid hrid
  · rw [heq1, heq2]
    intro hmem2
    exact hfresh2 rid hmem2 (hmark1 rid hrid)

theorem c2_resource_attributed_at_most_once_witness :
    1 ∈ (XMLHttpRequestInstrumentation._findResourceAndAddNetworkEvents c2mem1 0
        (some "https://x/y") (some 0) (some 100) c2s0).2 ∧
    1 ∈ (XMLHttpRequestInstrumentation._findResourceAndAddNetworkEvents c2mem1 0
        (some "https://x/y") (some 0) (some 100) c2s0).1.usedResources ∧
    1 ∉ (XMLHttpRequestInstrumentation._findResourceAndAddNetworkEvents c2mem2 1
        (some "https://x/y") (some 0) (some 100)
        (XMLHttpRequestInstrumentation._findResourceAndAddNetworkEvents c2mem1 0
          (some "https://x/y") (some 0) (some 100) c2s0).1).2 := by
  have h := c2_resource_attributed_at_most_once c2mem1 c2mem2 0 1 (some "https://x/y")
    (some "https://x/y") (some 0) (some 100) (some 0) (some 100) c2s0 1 (by decide)
  exact ⟨by decide, h.1, h.2⟩

/-! ## C6 -/

/-- C6: trace-propagation headers are injected into the outgoing request
exactly when the request URL matches some entry of the configured
propagateTraceHeaderCorsUrls allow-list (exact string or pattern match):
on a match every carrier entry the propagator writes is set on the
request; otherwise nothing is set on the request and the debug-level skip
message is logged exactly when the carrier is non-empty. The last two
conjuncts are the spec scenario with the pattern matching
api.example.com. -/
theorem c6_trace_header_propagation_gate (carrier : List (String × String))
    (spanUrl : String) (cors : Option PropagateTraceHeaderCorsUrls) (ps : List UrlPattern) :
    (addHeaders carrier spanUrl cors).setOnRequest
      = (if shouldPropagateTraceHeaders (parseUrl spanUrl).href cors then carrier else []) ∧
    ((addHeaders carrier spanUrl cors).debugLogged = true ↔
      (shouldPropagateTraceHeaders (parseUrl spanUrl).href cors = false ∧ carrier ≠ [])) ∧
    (shouldPropagateTraceHeaders spanUrl (some (PropagateTraceHeaderCorsUrls.list ps)) = true ↔
      ∃ p, p ∈ ps ∧ urlMatches spanUrl p = true) ∧
    shouldPropagateTraceHeaders "https://api.example.com/x"
      (some (PropagateTraceHeaderCorsUrls.list
        [UrlPattern.regex (fun u => strContains u "api.example.com")])) = true ∧
    shouldPropagateTraceHeaders "https://other.com/x"
      (some (PropagateTraceHeaderCorsUrls.list
        [UrlPattern.regex (fun u => strContains u "api.example.com")])) = false := by
  refine ⟨?_, ?_, ?_, by decide, by decide⟩
  · cases h : shouldPropagateTraceHeaders (parseUrl spanUrl).href cors <;>
      simp [addHeaders, h]
  · cases h : shouldPropagateTraceHeaders (parseUrl spanUrl).href cors <;>
      simp [addHeaders, h, List.length_pos]
  · simp [shouldPropagateTraceHeaders, List.any_eq_true]

/-! ## C7 -/

/-- C7: under networkBodyCapture the captured http.request.body attribute
value is the body serialization truncated to at most
MAX_BODY_LENGTH = 5 * 1024 characters: its length is the minimum of the
serialization length and the ceiling, a serialization within the ceiling
is captured unmodified, a longer one is cut to exactly the ceiling, and
the captured value is always a prefix of the serialization. A string body
serializes to itself, a non-string body to its stringification, and the
typed placeholder is substituted when stringification fails. -/
theorem c7_request_body_truncation (b : RequestBody) :
    MAX_BODY_LENGTH = 5 * 1024 ∧
    (capturedRequestBody b).length = min (serializeRequestBody b).length MAX_BODY_LENGTH ∧
    capturedRequestBody b
      = (if (serializeRequestBody b).length ≤ MAX_BODY_LENGTH then serializeRequestBody b
         else (serializeRequestBody b).take MAX_BODY_LENGTH) ∧
    capturedRequestBody b <+: serializeRequestBody b ∧
    (∀ sv : List Char, serializeRequestBody (RequestBody.str sv) = sv) ∧
    (∀ j tn, serializeRequestBody (RequestBody.nonString (some j) tn) = j) ∧
    (∀ tn, serializeRequestBody (RequestBody.nonString none tn)
      = ("[object of type " ++ tn ++ "]").data) := by
  refine ⟨rfl, ?_, ?_, ?_, fun _ => rfl, fun _ _ => rfl, fun _ => rfl⟩
  · simp only [capturedRequestBody, List.length_take]
    omega
  · by_cases h : (serializeRequestBody b).length ≤ MAX_BODY_LENGTH
    · rw [if_pos h]
      exact List.take_of_length_le h
    · rw [if_neg h]
      rfl
  · exact List.take_prefix _ _

/-! ## C9 -/

/-- C9: an init call on the uninitialized module whose configuration is
missing the required service name or the required apiKey (runtime-missing
or empty — the JS falsiness check) aborts early: an error is logged, init
returns nothing, no tracer provider is registered, no instrumentation is
installed, and the module stays uninitialized. -/
theorem c9_init_aborts_on_missing_config (config : ReactNativeConfiguration)
    (h : falsyString config.service = true ∨ falsyString config.apiKey = true) :
    HyperDXRum.init false config
      = { returnedSelf := false, errorLogged := true, warnLogged := false,
          providerRegistered := false, xhrInstrumentationInstalled := false,
          initializedAfter := false } := by
  unfold HyperDXRum.init
  rcases h with h | h
  · simp [h]
  · by_cases hs : falsyString config.service = true
    · simp [hs]
    · simp [hs, h]

theorem c9_init_aborts_on_missing_config_witness :
    (falsyString c9config.service = true ∨ falsyString c9config.apiKey = true) ∧
    HyperDXRum.init false c9config
      = { returnedSelf := false, errorLogged := true, warnLogged := false,
          providerRegistered := false, xhrInstrumentationInstalled := false,
          initializedAfter := false } :=
  ⟨Or.inl rfl, c9_init_aborts_on_missing_config c9config (Or.inl rfl)⟩
